import Mathlib

/-!
Verification development for the visitor traffic-quality analyzer
(`app.py`).  The client-supplied fingerprint payload is modelled by the
loose `Value` type below; dictionary access, truthiness, `len`, numeric
comparison and `float` conversion follow Python semantics, with
operations that raise a runtime exception in Python returning
`Except.error`.  Numbers are modelled by `Rat` (JSON numbers);
string-to-number coercion by `float` on numeric strings is not modelled
(no result below depends on it).  Dictionaries are modelled as
association lists in which the first occurrence of a key is
authoritative; duplicate keys are not considered.
-/

namespace VisitorApp

/-- A loosely-typed JSON-like value, as carried by the fingerprint payload. -/
inductive Value where
  | null : Value
  | bool : Bool → Value
  | num : Rat → Value
  | str : String → Value
  | list : List Value → Value
  | dict : List (String × Value) → Value

/-- A Python runtime exception, as raised by the analyzer code on
wrongly-typed payload values. -/
inductive PyErr where
  | attributeError : PyErr
  | typeError : PyErr
deriving DecidableEq, Repr

/-- Python truthiness of a value (`bool(v)`). -/
def truthy : Value → Bool
  | .null => false
  | .bool b => b
  | .num q => !(decide (q = 0))
  | .str s => !(s == "")
  | .list xs => !xs.isEmpty
  | .dict m => !m.isEmpty

/-- First-occurrence association-list lookup (dictionary access). -/
def valOf : List (String × Value) → String → Option Value
  | [], _ => none
  | (k, v) :: rest, key => if k == key then some v else valOf rest key

/-- `v.get(key, default)` in Python: association lookup on a dictionary,
`AttributeError` on any non-dictionary value. -/
def Value.pyGet (v : Value) (key : String) (default : Value) : Except PyErr Value :=
  match v with
  | .dict m => .ok ((valOf m key).getD default)
  | _ => .error .attributeError

/-- `len(v)` in Python: defined on strings, lists and dictionaries,
`TypeError` otherwise. -/
def pyLen : Value → Except PyErr Nat
  | .str s => .ok s.length
  | .list xs => .ok xs.length
  | .dict m => .ok m.length
  | _ => .error .typeError

/-- Implicit numeric view used by Python comparisons and arithmetic:
booleans are the integers 0 and 1. -/
def pyToNum : Value → Option Rat
  | .num q => some q
  | .bool b => some (if b then 1 else 0)
  | _ => none

/-- `v < n` in Python against a numeric literal; `TypeError` for
non-numeric values. -/
def pyLt (v : Value) (n : Rat) : Except PyErr Bool :=
  match pyToNum v with
  | some q => .ok (decide (q < n))
  | none => .error .typeError

/-- `v > n` in Python against a numeric literal; `TypeError` for
non-numeric values. -/
def pyGt (v : Value) (n : Rat) : Except PyErr Bool :=
  match pyToNum v with
  | some q => .ok (decide (q > n))
  | none => .error .typeError

/-- `v == n` in Python against a numeric literal (never raises; values
of other types simply compare unequal, while booleans compare as 0/1). -/
def pyEqNum (v : Value) (n : Rat) : Bool :=
  match pyToNum v with
  | some q => decide (q = n)
  | none => false

/-- `v == s` in Python against a string literal (never raises). -/
def pyEqStr (v : Value) (s : String) : Bool :=
  match v with
  | .str t => t == s
  | _ => false

/-- `float(v)` in Python; `TypeError`/`ValueError` for values that are
not numbers or booleans (parsing of numeric strings is not modelled). -/
def pyFloat (v : Value) : Except PyErr Rat :=
  match pyToNum v with
  | some q => .ok q
  | none => .error .typeError

/-- `acc + v` in Python (used by `sum` over raw payload values);
`TypeError` when `v` is not a number or boolean. -/
def pyAdd (acc : Rat) (v : Value) : Except PyErr Rat :=
  match pyToNum v with
  | some q => .ok (acc + q)
  | none => .error .typeError

/-- ASCII lower-casing of a character (header and user-agent analysis
strings are ASCII). -/
def charLower (c : Char) : Char :=
  if 65 ≤ c.toNat ∧ c.toNat ≤ 90 then Char.ofNat (c.toNat + 32) else c

/-- `s.lower()` for the ASCII strings this analysis handles. -/
def strLower (s : String) : String := String.mk (s.toList.map charLower)

/-- Helper for single-character string splitting. -/
def splitCharAux (sep : Char) (cur : List Char) : List Char → List (List Char)
  | [] => [cur.reverse]
  | c :: cs => if c == sep then cur.reverse :: splitCharAux sep [] cs
               else splitCharAux sep (c :: cur) cs

/-- `s.split(sep)` in Python for a single-character separator (the
empty string splits to one empty component). -/
def pySplit (s : String) (sep : Char) : List String :=
  (splitCharAux sep [] s.toList).map String.mk

/-- ASCII whitespace, as stripped by `str.strip()`. -/
def isSpaceChar (c : Char) : Bool := c == ' ' || c == '\t' || c == '\n' || c == '\r'

/-- `s.strip()` in Python (ASCII whitespace). -/
def pyStrip (s : String) : String :=
  String.mk (((s.toList.dropWhile isSpaceChar).reverse.dropWhile isSpaceChar).reverse)

/-- `v.lower()` in Python; `AttributeError` on non-strings. -/
def pyLower (v : Value) : Except PyErr String :=
  match v with
  | .str s => .ok (strLower s)
  | _ => .error .attributeError

/-- String rendering `str(v)` used only inside human-readable indicator
text (rendering of compound values is abbreviated). -/
def pyStr : Value → String
  | .null => "None"
  | .bool b => if b then "True" else "False"
  | .num q => toString q
  | .str s => s
  | .list _ => "[...]"
  | .dict _ => "\x7b...\x7d"

/-- Does the character list `hay` start with `pat`? -/
def headMatches : List Char → List Char → Bool
  | [], _ => true
  | _ :: _, [] => false
  | p :: ps, c :: cs => p == c && headMatches ps cs

/-- Substring search helper on character lists. -/
def subAux (pat : List Char) : List Char → Bool
  | [] => pat.isEmpty
  | c :: rest => headMatches pat (c :: rest) || subAux pat rest

/-- `pat in hay` for Python strings (substring containment). -/
def strContains (hay pat : String) : Bool :=
  subAux pat.toList hay.toList

/-- `s in v` in Python for a string `s` against a loose value: substring
for strings, element equality for lists, key membership for
dictionaries, `TypeError` otherwise. -/
def pyIn (s : String) (v : Value) : Except PyErr Bool :=
  match v with
  | .str t => .ok (strContains t s)
  | .list xs => .ok (xs.any (fun x => pyEqStr x s))
  | .dict m => .ok (m.any (fun p => p.1 == s))
  | _ => .error .typeError

/-- `sep.join(v)` in Python: joins list elements (which must be
strings), the characters of a string, or the keys of a dictionary. -/
def pyJoin (sep : String) (v : Value) : Except PyErr String :=
  match v with
  | .str t => .ok (String.intercalate sep (t.toList.map (fun c => String.mk [c])))
  | .dict m => .ok (String.intercalate sep (m.map (·.1)))
  | .list xs =>
    match xs.mapM (fun x => match x with | .str t => some t | _ => none) with
    | some ts => .ok (String.intercalate sep ts)
    | none => .error .typeError
  | _ => .error .typeError

/-- Exact-name association lookup on the captured header map
(`dict(request.headers)`, canonical names). -/
def hGet : List (String × String) → String → Option String
  | [], _ => none
  | (k, v) :: rest, key => if k == key then some v else hGet rest key

/-- `name in self.headers` (exact membership on the captured map). -/
def hMem (hs : List (String × String)) (key : String) : Bool :=
  (hGet hs key).isSome

/-- Case-insensitive header lookup (`request.headers.get`, the
transport-layer header object). -/
def hGetCI : List (String × String) → String → Option String
  | [], _ => none
  | (k, v) :: rest, key => if strLower k == strLower key then some v else hGetCI rest key

/-- Attributes of the parsed user-agent produced by the external
`user_agents.parse` library (only the attributes the core reads). -/
structure ParsedUA where
  browser_family : String
  os_family : String
  is_bot : Bool

/-- `VisitorAnalyzer.get_client_ip`: first comma-separated component of
`X-Forwarded-For` when that header has a truthy (non-empty) value, else
a truthy `X-Real-IP` value, else the transport-layer peer address. -/
def get_client_ip (hs : List (String × String)) (remote_addr : String) : String :=
  let xff := (hGetCI hs "X-Forwarded-For").getD ""
  if xff != "" then
    pyStrip ((pySplit xff (Char.ofNat 44)).headD "")
  else
    let xri := (hGetCI hs "X-Real-IP").getD ""
    if xri != "" then xri else remote_addr

/-- Result record of `analyze_headers`. -/
structure HeaderAnalysis where
  total_headers : Nat
  suspicious_patterns : List String
  missing_standard_headers : List String
  proxy_headers : List (String × String)
  header_quality : String

/-- The six standard browser headers checked by `analyze_headers`. -/
def standard_headers : List String :=
  ["User-Agent", "Accept", "Accept-Language",
   "Accept-Encoding", "Connection", "Upgrade-Insecure-Requests"]

/-- Automation-tool substrings flagged when found in any header value. -/
def automation_headers : List String :=
  ["Selenium", "PhantomJS", "Headless", "Python", "curl", "wget"]

/-- The seven forwarding/proxy header names surfaced by the header
analyzer and the proxy detector. -/
def proxy_header_names : List String :=
  ["X-Forwarded-For", "X-Real-IP", "Via", "Forwarded",
   "X-Proxy-ID", "CF-Connecting-IP", "X-Forwarded-Proto"]

/-- `VisitorAnalyzer.analyze_headers`. -/
def analyze_headers (hs : List (String × String)) : HeaderAnalysis :=
  let missing := standard_headers.filter (fun h => !hMem hs h)
  let proxyHdrs :=
    (["X-Forwarded-For", "X-Real-IP", "Via", "X-Proxy-ID", "Forwarded",
      "CF-Connecting-IP", "X-Forwarded-Proto"].filterMap
      (fun h => (hGet hs h).map (fun v => (h, v)))).filter (fun p => p.2 != "")
  let fewPat := if hs.length < 5 then ["Too few headers (possible bot)"] else []
  let accept := (hGet hs "Accept").getD ""
  let acceptPat :=
    if accept == "*/*" then ["Generic Accept header (typical of bots)"]
    else if accept == "" then ["Missing Accept header"]
    else []
  let langPat := if !hMem hs "Accept-Language" then ["Missing Accept-Language header"] else []
  let autoPat :=
    automation_headers.flatMap (fun auto =>
      hs.filterMap (fun p =>
        if strContains (strLower p.2) (strLower auto)
        then some ("Automation signature: " ++ auto) else none))
  let suspicious := fewPat ++ acceptPat ++ langPat ++ autoPat
  let quality :=
    if suspicious.length > 2 ∨ missing.length > 3 then "bad"
    else if suspicious.length > 0 ∨ missing.length > 1 then "suspicious"
    else "good"
  { total_headers := hs.length
    suspicious_patterns := suspicious
    missing_standard_headers := missing
    proxy_headers := proxyHdrs
    header_quality := quality }

/-- Result record of `analyze_user_agent` (the parsed echo is carried
in the request context). -/
structure UAAnalysis where
  raw_user_agent : String
  suspicious_patterns : List String
  quality : String

/-- Bot keyword substrings checked against the lower-cased user-agent. -/
def bot_keywords : List String :=
  ["bot", "crawler", "spider", "scraper", "curl", "wget", "python",
   "java", "php", "ruby", "go-http", "postman", "insomnia"]

/-- Common browser identifier substrings. -/
def browser_tokens : List String :=
  ["mozilla", "chrome", "safari", "firefox", "edge", "opera"]

/-- `VisitorAnalyzer.analyze_user_agent`. -/
def analyze_user_agent (ua : String) (parsed : ParsedUA) : UAAnalysis :=
  if ua == "" then
    { raw_user_agent := ua, suspicious_patterns := ["Missing User-Agent"], quality := "bad" }
  else
    let uaLower := strLower ua
    let botPat := bot_keywords.filterMap (fun kw =>
      if strContains uaLower kw then some ("Bot keyword detected: " ++ kw) else none)
    let lenPat :=
      if ua.length < 50 then ["User-Agent too short"]
      else if ua.length > 500 then ["User-Agent abnormally long"]
      else []
    let browserPat :=
      if !(browser_tokens.any (fun b => strContains uaLower b))
      then ["Missing common browser identifiers"] else []
    let versionPat :=
      if ua.toList.count '/' > 10 then ["Excessive version strings"] else []
    let patterns := botPat ++ lenPat ++ browserPat ++ versionPat
    let quality :=
      if parsed.is_bot || patterns.length > 2 then "bad"
      else if patterns.length > 0 then "suspicious"
      else "good"
    { raw_user_agent := ua, suspicious_patterns := patterns, quality := quality }

/-- Result record of `detect_threats`. -/
structure Threats where
  threat_level : String
  threats_detected : List String
  risk_factors : List String

/-- Sensitive path substrings checked by `detect_threats`. -/
def suspicious_paths : List String :=
  ["admin", "wp-admin", "phpmyadmin", ".env", "config", "backup"]

/-- `VisitorAnalyzer.detect_threats`. -/
def detect_threats (ua path method : String) : Threats :=
  let detected :=
    (if strContains (strLower ua) "sqlmap" then ["SQL injection tool detected"] else []) ++
    (if strContains (strLower ua) "nikto" then ["Nikto scanner detected"] else [])
  let factors :=
    (if suspicious_paths.any (fun p => strContains (strLower path) p)
     then ["Accessing suspicious path: " ++ path] else []) ++
    (if !(method == "GET" || method == "POST")
     then ["Unusual HTTP method: " ++ method] else [])
  let level :=
    if detected.length > 0 then "critical"
    else if factors.length > 2 then "high"
    else if factors.length > 0 then "medium"
    else "none"
  { threat_level := level, threats_detected := detected, risk_factors := factors }

/-- One indicator record: message, optional source-property name,
rendered observed value, optional attributed tool name. -/
structure Indicator where
  message : String
  property : Option String
  value : String
  tool : Option String

/-- Result record of `analyze_browser_fingerprint`. -/
structure FPAnalysis where
  fingerprint_data : Value
  inconsistencies : List Indicator
  manipulation_indicators : List Indicator
  quality : String

/-- Automation artifact window properties probed by the fingerprint
integrity analyzer. -/
def automation_props : List String :=
  ["__nightmare", "__phantomas", "callPhantom", "_phantom",
   "__selenium", "__webdriver", "__driver"]

/-- Webdriver check of `analyze_browser_fingerprint` (never raises on a
dictionary payload). -/
def webdriver_manip (m : List (String × Value)) : List Indicator :=
  let wd := (valOf m "webdriver").getD .null
  if truthy wd then
    [⟨"WebDriver detected (Selenium/Automation)", some "navigator.webdriver", pyStr wd, none⟩]
  else []

/-- Headless check of `analyze_browser_fingerprint`. -/
def headless_manip (m : List (String × Value)) : List Indicator :=
  if truthy ((valOf m "headless").getD .null) then
    [⟨"Headless browser detected", some "headless", "true", none⟩]
  else []

/-- Plugins check of `analyze_browser_fingerprint`. -/
def plugins_incons (m : List (String × Value)) : List Indicator :=
  let plugins := (valOf m "plugins").getD (.num 0)
  if pyEqNum plugins 0 then
    [⟨"No browser plugins (unusual for real browsers)", some "navigator.plugins.length",
      pyStr plugins, none⟩]
  else []

/-- Languages check of `analyze_browser_fingerprint`: `len` of a truthy
non-sized value raises. -/
def languages_incons (m : List (String × Value)) : Except PyErr (List Indicator) :=
  let languages := (valOf m "languages").getD (.list [])
  if !truthy languages then
    .ok [⟨"No languages detected", some "navigator.languages", pyStr languages, none⟩]
  else do
    let n ← pyLen languages
    pure (if n == 0 then
      [⟨"No languages detected", some "navigator.languages", pyStr languages, none⟩] else [])

/-- Canvas check of `analyze_browser_fingerprint`: a blocked or falsy
(or absent) canvas signature is a manipulation indicator. -/
def canvas_manip (m : List (String × Value)) : List Indicator :=
  let canvas := (valOf m "canvas").getD .null
  if pyEqStr canvas "blocked" || !truthy canvas then
    [⟨"Canvas fingerprinting blocked or unavailable", some "canvas",
      if truthy canvas then pyStr canvas else "null", none⟩]
  else []

/-- WebGL check of `analyze_browser_fingerprint`. -/
def webgl_incons (m : List (String × Value)) : List Indicator :=
  let wv := (valOf m "webgl_vendor").getD .null
  let wr := (valOf m "webgl_renderer").getD .null
  if !truthy wv || !truthy wr then
    [⟨"WebGL information missing", some "webgl_vendor/renderer",
      (if truthy wv then pyStr wv else "null") ++ " / " ++
      (if truthy wr then pyStr wr else "null"), none⟩]
  else []

/-- Screen-resolution check of `analyze_browser_fingerprint`: comparing
a non-numeric dimension raises. -/
def screen_incons (m : List (String × Value)) : Except PyErr (List Indicator) :=
  let sw := (valOf m "screen_width").getD (.num 0)
  let sh := (valOf m "screen_height").getD (.num 0)
  if pyEqNum sw 0 || pyEqNum sh 0 then
    .ok [⟨"Invalid screen dimensions", some "screen.width x screen.height",
      pyStr sw ++ " x " ++ pyStr sh, none⟩]
  else do
    let wSmall ← pyLt sw 800
    let small ← if wSmall then pure true else pyLt sh 600
    pure (if small then
      [⟨"Unusual screen resolution (too small)", some "screen.width x screen.height",
        pyStr sw ++ " x " ++ pyStr sh, none⟩]
      else [])

/-- Timezone check of `analyze_browser_fingerprint`. -/
def timezone_incons (m : List (String × Value)) : List Indicator :=
  if !truthy ((valOf m "timezone").getD .null) then
    [⟨"Timezone not detected", some "timezone", "null", none⟩]
  else []

/-- Automation-artifact loop of `analyze_browser_fingerprint`. -/
def artifacts_manip (m : List (String × Value)) : List Indicator :=
  automation_props.flatMap (fun prop =>
    let v := (valOf m prop).getD .null
    if truthy v then
      [⟨"Automation artifact detected", some ("window." ++ prop), pyStr v, none⟩]
    else [])

/-- `VisitorAnalyzer.analyze_browser_fingerprint`: the checks run in
source order; only the languages and screen checks can raise (the other
reads never fail on a dictionary payload), and the first raise aborts
the analysis.  A truthy non-dictionary payload raises at its first
attribute access. -/
def analyze_browser_fingerprint (fp : Value) : Except PyErr FPAnalysis :=
  if !truthy fp then
    .ok { fingerprint_data := fp
          inconsistencies := [⟨"No fingerprint data received", none, "null", none⟩]
          manipulation_indicators := []
          quality := "bad" }
  else
    match fp with
    | .dict m => do
      let langInc ← languages_incons m
      let screenInc ← screen_incons m
      let manip := webdriver_manip m ++ headless_manip m ++ canvas_manip m ++ artifacts_manip m
      let incons := plugins_incons m ++ langInc ++ webgl_incons m ++ screenInc ++ timezone_incons m
      let quality :=
        if manip.length > 0 then "bad"
        else if incons.length > 3 then "suspicious"
        else if incons.length > 0 then "acceptable"
        else "good"
      pure { fingerprint_data := fp
             inconsistencies := incons
             manipulation_indicators := manip
             quality := quality }
    | _ => .error .attributeError

/-- Result record of `detect_proxy_vpn`. -/
structure ProxyDetection where
  indicators : List Indicator
  proxy_headers_found : List String
  risk_level : String
  is_proxy_likely : Bool

/-- Address-reputation block of `detect_proxy_vpn`: the four
`ip_info` flags, read only when `ip_info` is truthy (a truthy
non-dictionary raises at the first read). -/
def ip_info_indicators (ip : String) (ipinfo : Value) : Except PyErr (List Indicator) :=
  if truthy ipinfo then do
    let dc ← ipinfo.pyGet "is_datacenter" .null
    let vpn ← ipinfo.pyGet "is_vpn" .null
    let px ← ipinfo.pyGet "is_proxy" .null
    let tor ← ipinfo.pyGet "is_tor" .null
    pure (
      (if truthy dc then
        [(⟨"IP from datacenter (hosting provider)", some "ip_info.is_datacenter", "IP: " ++ ip, none⟩ : Indicator)] else []) ++
      (if truthy vpn then
        [(⟨"VPN detected", some "ip_info.is_vpn", "IP: " ++ ip, none⟩ : Indicator)] else []) ++
      (if truthy px then
        [(⟨"Proxy detected", some "ip_info.is_proxy", "IP: " ++ ip, none⟩ : Indicator)] else []) ++
      (if truthy tor then
        [(⟨"Tor exit node detected", some "ip_info.is_tor", "IP: " ++ ip, none⟩ : Indicator)] else []))
  else pure []

/-- WebRTC-leak block of `detect_proxy_vpn`: `len`, membership and
join all follow Python semantics and can raise on unexpected types. -/
def webrtc_indicators (ip : String) (webrtc : Value) : Except PyErr (List Indicator) :=
  if truthy webrtc then do
    let n ← pyLen webrtc
    if n > 0 then do
      let isIn ← pyIn ip webrtc
      if !isIn then do
        let joined ← pyJoin ", " webrtc
        pure [(⟨"WebRTC IP mismatch (possible VPN/proxy leak)", some "webrtc_ips",
          "Request IP: " ++ ip ++ ", WebRTC IPs: " ++ joined, none⟩ : Indicator)]
      else pure []
    else pure []
  else pure []

/-- `VisitorAnalyzer.detect_proxy_vpn`. -/
def detect_proxy_vpn (hs : List (String × String)) (ip : String) (fp : Value) :
    Except PyErr ProxyDetection := do
  let found := proxy_header_names.filter (fun h => hMem hs h)
  let headerInds : List Indicator := proxy_header_names.filterMap (fun h =>
    if hMem hs h then some ⟨"Proxy header present", some h, (hGet hs h).getD "", none⟩
    else none)
  let xff := (hGet hs "X-Forwarded-For").getD ""
  let multi := strContains xff ","
  let multiInds : List Indicator := if multi then
    [⟨"Multiple IPs in proxy chain", some "X-Forwarded-For",
      toString (pySplit xff (Char.ofNat 44)).length ++ " IPs: " ++ xff, none⟩]
    else []
  let viaInds : List Indicator := if hMem hs "Via" then
    [⟨"Via header indicates explicit proxy", some "Via", (hGet hs "Via").getD "", none⟩]
    else []
  let likely := multi || hMem hs "Via"
  let ipinfo ← fp.pyGet "ip_info" .null
  let ipInds ← ip_info_indicators ip ipinfo
  let webrtc ← fp.pyGet "webrtc_ips" (.list [])
  let wInds ← webrtc_indicators ip webrtc
  let inds := headerInds ++ multiInds ++ viaInds ++ ipInds ++ wInds
  let risk :=
    if inds.length > 3 || likely then "high"
    else if inds.length > 1 then "medium"
    else if inds.length > 0 then "low"
    else "none"
  pure { indicators := inds, proxy_headers_found := found,
         risk_level := risk, is_proxy_likely := likely }

/-- Result record of `detect_automation`. -/
structure AutomationDetection where
  indicators : List Indicator
  automation_type : List String
  confidence : String

/-- The window-property / tool-name table probed by `detect_automation`. -/
def automation_checks : List (String × String) :=
  [("__webdriver", "Selenium"), ("__driver", "WebDriver"), ("__selenium", "Selenium"),
   ("__nightmare", "Nightmare.js"), ("__phantomas", "PhantomJS"),
   ("callPhantom", "PhantomJS"), ("_phantom", "PhantomJS"),
   ("domAutomation", "Chrome Extension"), ("domAutomationController", "Chrome Automation")]

/-- `VisitorAnalyzer.detect_automation`: on a dictionary payload none
of its reads can raise (they are all `.get` calls with defaults and
equality tests), so the detection is computed directly; a truthy
non-dictionary payload raises at the first attribute access. -/
def detect_automation (fp : Value) : Except PyErr AutomationDetection :=
  match fp with
  | .dict m =>
    let wd := (valOf m "webdriver").getD .null
    let start : List Indicator × List String :=
      if truthy wd then
        ([⟨"Navigator.webdriver = true", some "navigator.webdriver", pyStr wd, none⟩],
         ["Selenium/WebDriver"])
      else ([], [])
    let acc := automation_checks.foldl (fun (acc : List Indicator × List String) pt =>
      let v := (valOf m pt.1).getD .null
      if truthy v then
        (acc.1 ++ [⟨"Automation property detected", some ("window." ++ pt.1), pyStr v, some pt.2⟩],
         if acc.2.contains pt.2 then acc.2 else acc.2 ++ [pt.2])
      else acc) start
    let chrome := (valOf m "chrome").getD .null
    let chromeInds : List Indicator :=
      if truthy chrome then
        if !truthy ((valOf m "chrome_runtime").getD .null) then
          [⟨"Chrome detected but chrome.runtime missing", some "window.chrome.runtime",
            "undefined (suspicious)", none⟩]
        else []
      else []
    let pq := (valOf m "permissions_query_unavailable").getD .null
    let pqInds : List Indicator :=
      if truthy pq then
        [⟨"Permissions API blocked (common in automation)", some "navigator.permissions.query",
          "unavailable", none⟩]
      else []
    let np := (valOf m "notification_permission").getD .null
    let npInds : List Indicator :=
      if pyEqStr np "denied" then
        [⟨"Notifications denied (automation default)", some "Notification.permission",
          "denied", none⟩]
      else []
    let inds := acc.1 ++ chromeInds ++ pqInds ++ npInds
    let conf :=
      if inds.length > 3 then "very_high"
      else if inds.length > 1 then "high"
      else if inds.length > 0 then "medium"
      else "low"
    .ok { indicators := inds, automation_type := acc.2, confidence := conf }
  | _ => .error .attributeError

/-- One consistency check result. -/
structure CheckResult where
  check : String
  status : String
  details : String

/-- Result record of `check_consistency`: the ordered check list plus
the per-status counters the code tallies alongside it. -/
structure Consistency where
  checks : List CheckResult
  passed : Nat
  failed : Nat
  warnings : Nat

/-- Platform-vs-UA-OS check of `check_consistency`: `.lower()` on a
truthy non-string platform raises. -/
def os_consistency_check (m : List (String × Value)) (parsed : ParsedUA) :
    Except PyErr (List CheckResult) :=
  let platform := (valOf m "platform").getD .null
  if truthy platform then do
    let fpPlat ← pyLower platform
    let uaOs := strLower parsed.os_family
    if strContains fpPlat "win" && !strContains uaOs "windows" then
      pure [(⟨"OS Consistency", "failed",
        "Platform says " ++ fpPlat ++ " but UA says " ++ uaOs⟩ : CheckResult)]
    else if strContains fpPlat "mac" && !strContains uaOs "mac" then
      pure [(⟨"OS Consistency", "failed",
        "Platform mismatch: " ++ fpPlat ++ " vs " ++ uaOs⟩ : CheckResult)]
    else
      pure [(⟨"OS Consistency", "passed", "OS matches between UA and fingerprint"⟩ : CheckResult)]
  else pure []

/-- Declared-language vs Accept-Language check of `check_consistency`:
`.split` on a truthy non-string declared language raises. -/
def language_consistency_check (m : List (String × Value)) (hs : List (String × String)) :
    Except PyErr (List CheckResult) :=
  let fpLang := (valOf m "language").getD (.str "")
  let headerLang := (hGet hs "Accept-Language").getD ""
  if truthy fpLang && headerLang != "" then do
    let langStr ← match fpLang with
      | .str s => pure s
      | _ => Except.error PyErr.attributeError
    let code := strLower ((pySplit langStr (Char.ofNat 45)).headD "")
    if !strContains (strLower headerLang) code then
      pure [(⟨"Language Consistency", "warning",
        "Language mismatch: FP=" ++ langStr ++ ", Header=" ++ headerLang⟩ : CheckResult)]
    else
      pure [(⟨"Language Consistency", "passed", "Languages match"⟩ : CheckResult)]
  else pure []

/-- Timezone-offset range check of `check_consistency`: skipped when
the offset is absent or null, raising on non-numeric comparison. -/
def timezone_consistency_check (m : List (String × Value)) :
    Except PyErr (List CheckResult) :=
  match (valOf m "timezone_offset").getD .null with
  | .null => pure []
  | v => do
    let lo ← pyLt v (-720)
    let bad ← if lo then pure true else pyGt v 840
    if bad then
      pure [(⟨"Timezone Validation", "failed", "Invalid timezone offset: " ++ pyStr v⟩ : CheckResult)]
    else
      pure [(⟨"Timezone Validation", "passed", "Valid timezone offset"⟩ : CheckResult)]

/-- Hardware-concurrency check of `check_consistency`: always
evaluated, defaulting to 0 when absent. -/
def hardware_concurrency_check (m : List (String × Value)) :
    Except PyErr (List CheckResult) :=
  let hc := (valOf m "hardware_concurrency").getD (.num 0)
  if pyEqNum hc 0 then
    pure [(⟨"Hardware Concurrency", "failed", "No CPU cores reported"⟩ : CheckResult)]
  else do
    let big ← pyGt hc 32
    if big then
      pure [(⟨"Hardware Concurrency", "warning", "Unusual core count: " ++ pyStr hc⟩ : CheckResult)]
    else
      pure [(⟨"Hardware Concurrency", "passed", pyStr hc ++ " cores detected"⟩ : CheckResult)]

/-- `VisitorAnalyzer.check_consistency`: the four checks in source
order (the per-status counters are incremented exactly when a check
with that status is appended, so they are computed here by counting); a
truthy non-dictionary payload raises at the first attribute access. -/
def check_consistency (fp : Value) (parsed : ParsedUA) (hs : List (String × String)) :
    Except PyErr Consistency :=
  match fp with
  | .dict m => do
    let osChecks ← os_consistency_check m parsed
    let langChecks ← language_consistency_check m hs
    let tzChecks ← timezone_consistency_check m
    let hcChecks ← hardware_concurrency_check m
    let checks := osChecks ++ langChecks ++ tzChecks ++ hcChecks
    pure { checks := checks
           passed := (checks.filter (fun c => c.status == "passed")).length
           failed := (checks.filter (fun c => c.status == "failed")).length
           warnings := (checks.filter (fun c => c.status == "warning")).length }
  | _ => .error .attributeError

/-- Result record of `analyze_behavioral_signals` (raw payload values
are echoed; the score is derived from their Python sum). -/
structure Behavioral where
  mouse_movement : Value
  keyboard_input : Value
  touch_support : Value
  page_focus : Value
  scroll_behavior : Value
  behavioral_score : String

/-- `VisitorAnalyzer.analyze_behavioral_signals`. -/
def analyze_behavioral_signals (fp : Value) : Except PyErr Behavioral := do
  let mm ← fp.pyGet "has_mouse_movement" (.bool false)
  let ki ← fp.pyGet "has_keyboard_input" (.bool false)
  let ts ← fp.pyGet "touch_support" (.bool false)
  let pf ← fp.pyGet "has_page_focus" (.bool true)
  let sc ← fp.pyGet "has_scroll" (.bool false)
  let s1 ← pyAdd 0 mm
  let s2 ← pyAdd s1 ki
  let s3 ← pyAdd s2 pf
  let s4 ← pyAdd s3 sc
  let score :=
    if s4 ≥ 3 then "human_likely"
    else if s4 ≥ 2 then "uncertain"
    else "bot_likely"
  pure { mouse_movement := mm, keyboard_input := ki, touch_support := ts,
         page_focus := pf, scroll_behavior := sc, behavioral_score := score }

/-- Mouse sub-record of the advanced behavioral analysis. -/
structure MouseB where
  total_movements : Value
  average_velocity : Rat
  max_velocity : Rat
  average_acceleration : Rat
  has_human_curves : Value
  quality : String
  bot_indicator : Option String

/-- Click sub-record of the advanced behavioral analysis. -/
structure ClickB where
  total_clicks : Value
  average_interval : Rat
  rhythm_variance : Rat
  quality : String
  bot_indicator : Option String

/-- Scroll sub-record of the advanced behavioral analysis. -/
structure ScrollB where
  total_scrolls : Value
  average_velocity : Rat
  has_scrolled : Value

/-- Keyboard sub-record of the advanced behavioral analysis. -/
structure KeyboardB where
  average_dwell_time : Rat
  average_flight_time : Rat
  typing_rhythm : Rat
  quality : String

/-- Result record of `analyze_advanced_behavioral`; a sub-record is
`none` when its payload section was absent or falsy (the code leaves an
empty map). -/
structure Advanced where
  mouse_behavior : Option MouseB
  click_behavior : Option ClickB
  scroll_behavior : Option ScrollB
  keyboard_behavior : Option KeyboardB
  human_likelihood : String

/-- Mouse section of `analyze_advanced_behavioral` (repeated
`float(...get(...))` calls on the same key yield the same value and the
same failure behaviour, so each is evaluated once and reused). -/
def mouse_section (md : Value) : Except PyErr (Option MouseB) :=
  if truthy md then do
    let tm ← md.pyGet "total_movements" (.num 0)
    let av ← pyFloat (← md.pyGet "average_velocity" (.num 0))
    let mv ← pyFloat (← md.pyGet "max_velocity" (.num 0))
    let aa ← pyFloat (← md.pyGet "average_acceleration" (.num 0))
    let hc ← md.pyGet "has_human_curves" (.bool false)
    let hcq ← md.pyGet "has_human_curves" .null
    let q := if truthy hcq then "good" else "suspicious"
    let bi :=
      if av > 3000 then some "Abnormally high velocity"
      else if av == 0 then some "No mouse movement"
      else none
    pure (some (⟨tm, av, mv, aa, hc, q, bi⟩ : MouseB))
  else pure none

/-- Click section of `analyze_advanced_behavioral`. -/
def click_section (cd : Value) : Except PyErr (Option ClickB) :=
  if truthy cd then do
    let tc ← cd.pyGet "total_clicks" (.num 0)
    let ai ← pyFloat (← cd.pyGet "average_click_interval" (.num 0))
    let rv ← pyFloat (← cd.pyGet "click_rhythm_variance" (.num 0))
    let q := if rv > 100 then "good" else "suspicious"
    let bi := if rv < 50 then some "Too consistent (bot-like)" else none
    pure (some (⟨tc, ai, rv, q, bi⟩ : ClickB))
  else pure none

/-- Scroll section of `analyze_advanced_behavioral`. -/
def scroll_section (sd : Value) : Except PyErr (Option ScrollB) :=
  if truthy sd then do
    let tsc ← sd.pyGet "total_scrolls" (.num 0)
    let sv ← pyFloat (← sd.pyGet "average_scroll_velocity" (.num 0))
    let hsc ← sd.pyGet "has_scrolled" (.bool false)
    pure (some (⟨tsc, sv, hsc⟩ : ScrollB))
  else pure none

/-- Keyboard section of `analyze_advanced_behavioral`. -/
def keyboard_section (kd : Value) : Except PyErr (Option KeyboardB) :=
  if truthy kd then do
    let dw ← pyFloat (← kd.pyGet "average_dwell_time" (.num 0))
    let fl ← pyFloat (← kd.pyGet "average_flight_time" (.num 0))
    let tr ← pyFloat (← kd.pyGet "typing_rhythm" (.num 0))
    let q := if tr > 0 then "good" else "unknown"
    pure (some (⟨dw, fl, tr, q⟩ : KeyboardB))
  else pure none

/-- `VisitorAnalyzer.analyze_advanced_behavioral`: the four sections in
source order, then the weighted human-likelihood vote. -/
def analyze_advanced_behavioral (fp : Value) : Except PyErr Advanced := do
  let md ← fp.pyGet "mouse_behavior" (.dict [])
  let mouse ← mouse_section md
  let cd ← fp.pyGet "click_behavior" (.dict [])
  let click ← click_section cd
  let sd ← fp.pyGet "scroll_behavior" (.dict [])
  let scroll ← scroll_section sd
  let kd ← fp.pyGet "keyboard_behavior" (.dict [])
  let keyboard ← keyboard_section kd
  let humanPts : Nat :=
    (if (mouse.map (fun m => truthy m.has_human_curves)).getD false then 2 else 0) +
    (if (click.map (fun c => decide (c.rhythm_variance > 100))).getD false then 1 else 0)
  let botPts : Nat :=
    (if (mouse.map (fun m => m.bot_indicator.isSome)).getD false then 2 else 0) +
    (if (click.map (fun c => c.bot_indicator.isSome)).getD false then 2 else 0)
  let likelihood :=
    if humanPts > botPts then "high"
    else if botPts > humanPts then "low"
    else "medium"
  pure { mouse_behavior := mouse, click_behavior := click, scroll_behavior := scroll,
         keyboard_behavior := keyboard, human_likelihood := likelihood }

/-- Result record of `analyze_vm_detection`. -/
structure VMDetection where
  vm_likelihood : Value
  indicators : Value
  total_indicators : Nat
  is_likely_vm : Bool

/-- Likely-VM flag of `analyze_vm_detection` (conditional expression
guarded by the truthiness of the pass-through map). -/
def vm_is_likely (vm : Value) : Except PyErr Bool :=
  if truthy vm then do
    let vl ← vm.pyGet "vm_likelihood" .null
    pure (pyEqStr vl "high" || pyEqStr vl "medium")
  else pure false

/-- `VisitorAnalyzer.analyze_vm_detection`. -/
def analyze_vm_detection (fp : Value) : Except PyErr VMDetection := do
  let vm ← fp.pyGet "vm_detection" (.dict [])
  let likelihood ← vm.pyGet "vm_likelihood" (.str "unknown")
  let total : Nat :=
    match vm with
    | .dict m => (m.filter (fun p => pyEqNum p.2 1)).length
    | _ => 0
  let isVm ← vm_is_likely vm
  pure { vm_likelihood := likelihood, indicators := vm,
         total_indicators := total, is_likely_vm := isVm }

/-- Result record of `analyze_extensions`. -/
structure Extensions where
  total_detected : Value
  adblock_detected : Value
  devtools_detected : Bool
  extensions : Value
  privacy_concerned : Bool

/-- `VisitorAnalyzer.analyze_extensions`. -/
def analyze_extensions (fp : Value) : Except PyErr Extensions := do
  let ext ← fp.pyGet "browser_extensions" (.dict [])
  let td ← ext.pyGet "total_detected" (.num 0)
  let ab ← ext.pyGet "adblock_detected" (.bool false)
  let rd ← ext.pyGet "react_devtools" (.bool false)
  let vd ← ext.pyGet "vue_devtools" (.bool false)
  let pb ← ext.pyGet "privacy_badger" (.bool false)
  pure { total_detected := td, adblock_detected := ab,
         devtools_detected := truthy rd || truthy vd,
         extensions := ext,
         privacy_concerned := truthy ab || truthy pb }

/-- Result record of `analyze_timing`. -/
structure TimingAnalysis where
  page_load_time : Value
  time_to_first_interaction : Value
  time_to_first_click : Value
  time_to_first_scroll : Value
  suspicion_level : String
  reason : Option String

/-- Interaction fallback of the timing analysis: a truthy reported
time-to-first-interaction below 50 ms is high suspicion. -/
def interaction_suspicion (tfi : Value) : Except PyErr (String × Option String) := do
  let interFast ← if truthy tfi then pyLt tfi 50 else pure false
  if interFast then pure ("high", some "Interacted too fast")
  else pure ("none", none)

/-- Suspicion level of the timing analysis: a truthy reported
time-to-first-click below 100 ms is high suspicion, else the
interaction fallback applies. -/
def timing_suspicion (tfc tfi : Value) : Except PyErr (String × Option String) := do
  let clickFast ← if truthy tfc then pyLt tfc 100 else pure false
  if clickFast then pure ("high", some "Clicked too fast (< 100ms)")
  else interaction_suspicion tfi

/-- `VisitorAnalyzer.analyze_timing`. -/
def analyze_timing (fp : Value) : Except PyErr TimingAnalysis := do
  let td ← fp.pyGet "advanced_timing" (.dict [])
  let plt ← td.pyGet "page_load_time" (.num 0)
  let tfi ← td.pyGet "time_to_first_interaction" .null
  let tfc ← td.pyGet "time_to_first_click" .null
  let tfs ← td.pyGet "time_to_first_scroll" .null
  let sr ← timing_suspicion tfc tfi
  pure { page_load_time := plt, time_to_first_interaction := tfi,
         time_to_first_click := tfc, time_to_first_scroll := tfs,
         suspicion_level := sr.1, reason := sr.2 }

/-- Result record of `analyze_css_media`. -/
structure CssMedia where
  total_features : Value
  pointer_type : String
  hover_capable : Value
  color_gamut : String
  prefers_dark_mode : Value
  reduced_motion : Value
  features : Value

/-- Pointer-type derivation of `analyze_css_media` (conditional
expression over two media-query flags). -/
def pointer_type_of (cd : Value) : Except PyErr String := do
  let pfine ← cd.pyGet "pointer_fine" .null
  if truthy pfine then pure "fine"
  else do
    let pcoarse ← cd.pyGet "pointer_coarse" .null
    pure (if truthy pcoarse then "coarse" else "none")

/-- Color-gamut derivation of `analyze_css_media`. -/
def color_gamut_of (cd : Value) : Except PyErr String := do
  let g3 ← cd.pyGet "color_gamut_p3" .null
  if truthy g3 then pure "p3"
  else do
    let gs ← cd.pyGet "color_gamut_srgb" .null
    pure (if truthy gs then "srgb" else "unknown")

/-- `VisitorAnalyzer.analyze_css_media`. -/
def analyze_css_media (fp : Value) : Except PyErr CssMedia := do
  let cd ← fp.pyGet "css_media_queries" (.dict [])
  let inTop ← pyIn "css_media_queries_count" fp
  let total ← if inTop then cd.pyGet "css_media_queries_count" (.num 0) else pure (Value.num 0)
  let ptype ← pointer_type_of cd
  let hov ← cd.pyGet "hover_hover" (.bool false)
  let gamut ← color_gamut_of cd
  let dark ← cd.pyGet "prefers_color_scheme_dark" (.bool false)
  let rm ← cd.pyGet "prefers_reduced_motion" (.bool false)
  pure { total_features := total, pointer_type := ptype, hover_capable := hov,
         color_gamut := gamut, prefers_dark_mode := dark, reduced_motion := rm,
         features := cd }

/-- Result record of `analyze_speech` (when unsupported the code
returns only the `supported` flag; the remaining fields then carry
their neutral defaults here). -/
structure Speech where
  supported : Bool
  voices_count : Value
  voice_hash : Value
  has_voices : Bool
  uniqueness : String

/-- `VisitorAnalyzer.analyze_speech`. -/
def analyze_speech (fp : Value) : Except PyErr Speech := do
  let sup ← fp.pyGet "speech_synthesis_support" (.bool false)
  if !truthy sup then
    pure { supported := false, voices_count := .null, voice_hash := .null,
           has_voices := false, uniqueness := "" }
  else do
    let vc ← fp.pyGet "speech_voices_count" (.num 0)
    let vh ← fp.pyGet "speech_voice_hash" (.str "")
    let hv ← pyGt vc 0
    let uniq ← pyGt vc 10
    pure { supported := true, voices_count := vc, voice_hash := vh,
           has_voices := hv, uniqueness := if uniq then "high" else "low" }

/-- Result record of `analyze_client_hints` (fields default to null
when unsupported, mirroring the short-circuit return). -/
structure ClientHints where
  supported : Bool
  mobile : Value
  platform : Value
  brands : Value
  high_entropy : Value
  architecture : Value
  bitness : Value

/-- `VisitorAnalyzer.analyze_client_hints`. -/
def analyze_client_hints (fp : Value) : Except PyErr ClientHints := do
  let hints ← fp.pyGet "client_hints" (.dict [])
  if !truthy hints then
    pure { supported := false, mobile := .null, platform := .null, brands := .null,
           high_entropy := .null, architecture := .null, bitness := .null }
  else do
    let mob ← hints.pyGet "mobile" (.bool false)
    let plat ← hints.pyGet "platform" (.str "unknown")
    let br ← hints.pyGet "brands" (.list [])
    let he ← fp.pyGet "client_hints_high_entropy" (.dict [])
    let arch ← he.pyGet "architecture" .null
    let bit ← he.pyGet "bitness" .null
    pure { supported := true, mobile := mob, platform := plat, brands := br,
           high_entropy := he, architecture := arch, bitness := bit }

/-- Result record of `analyze_tls` (transport properties are consumed
as already-resolved inputs). -/
structure TlsAnalysis where
  protocol : String
  is_secure : Bool
  cipher_suite : String
  tls_version : String
  client_fingerprint : Option Value

/-- `VisitorAnalyzer.analyze_tls`. -/
def analyze_tls (protocol : String) (is_secure : Bool) (cipher tls_version : String)
    (fp : Value) : Except PyErr TlsAnalysis := do
  let tf ← fp.pyGet "tls_fingerprint" .null
  pure { protocol := protocol, is_secure := is_secure, cipher_suite := cipher,
         tls_version := tls_version,
         client_fingerprint := if truthy tf then some tf else none }

/-- The mutable `risk` record threaded through `calculate_risk_score`. -/
structure Risk where
  total_score : Nat
  max_score : Nat
  risk_level : String
  visitor_quality : String
  is_genuine : Bool
  confidence : Nat
  red_flags : List String
  green_flags : List String

/-- Initial state of the risk record. -/
def risk0 : Risk :=
  { total_score := 0, max_score := 100, risk_level := "unknown",
    visitor_quality := "unknown", is_genuine := true, confidence := 0,
    red_flags := [], green_flags := [] }

/-- Header-quality scoring block of `calculate_risk_score`. -/
def scoreHeader (q : String) (r : Risk) : Risk :=
  if q == "bad" then
    { r with total_score := r.total_score + 25, red_flags := r.red_flags ++ ["Poor header quality"] }
  else if q == "suspicious" then
    { r with total_score := r.total_score + 15, red_flags := r.red_flags ++ ["Suspicious headers"] }
  else
    { r with green_flags := r.green_flags ++ ["Good header quality"] }

/-- User-agent scoring block of `calculate_risk_score`. -/
def scoreUA (q : String) (r : Risk) : Risk :=
  if q == "bad" then
    { r with total_score := r.total_score + 20, red_flags := r.red_flags ++ ["Bad User-Agent"] }
  else if q == "suspicious" then
    { r with total_score := r.total_score + 10, red_flags := r.red_flags ++ ["Suspicious User-Agent"] }
  else
    { r with green_flags := r.green_flags ++ ["Valid User-Agent"] }

/-- Fingerprint scoring block of `calculate_risk_score`. -/
def scoreFingerprint (q : String) (r : Risk) : Risk :=
  if q == "bad" then
    { r with total_score := r.total_score + 30,
             red_flags := r.red_flags ++ ["Manipulated fingerprint"],
             is_genuine := false }
  else if q == "suspicious" then
    { r with total_score := r.total_score + 15, red_flags := r.red_flags ++ ["Suspicious fingerprint"] }
  else
    { r with green_flags := r.green_flags ++ ["Natural fingerprint"] }

/-- Proxy/VPN scoring block of `calculate_risk_score`. -/
def scoreProxy (lvl : String) (r : Risk) : Risk :=
  if lvl == "high" then
    { r with total_score := r.total_score + 20, red_flags := r.red_flags ++ ["Proxy/VPN detected"] }
  else if lvl == "medium" then
    { r with total_score := r.total_score + 10, red_flags := r.red_flags ++ ["Possible proxy/VPN"] }
  else r

/-- Automation scoring block of `calculate_risk_score`. -/
def scoreAutomation (conf : String) (r : Risk) : Risk :=
  if conf == "very_high" || conf == "high" then
    { r with total_score := r.total_score + 25,
             red_flags := r.red_flags ++ ["Automation detected"],
             is_genuine := false }
  else if conf == "medium" then
    { r with total_score := r.total_score + 10, red_flags := r.red_flags ++ ["Possible automation"] }
  else r

/-- Consistency-failure scoring block of `calculate_risk_score`. -/
def scoreConsistency (failed : Nat) (r : Risk) : Risk :=
  if failed > 2 then
    { r with total_score := r.total_score + 15, red_flags := r.red_flags ++ ["Multiple consistency failures"] }
  else if failed > 0 then
    { r with total_score := r.total_score + 5 }
  else r

/-- Threat scoring block of `calculate_risk_score`. -/
def scoreThreat (lvl : String) (r : Risk) : Risk :=
  if lvl == "critical" then
    { r with total_score := r.total_score + 50,
             red_flags := r.red_flags ++ ["Critical threat detected"],
             is_genuine := false }
  else if lvl == "high" then
    { r with total_score := r.total_score + 30, red_flags := r.red_flags ++ ["High threat level"] }
  else r

/-- Advanced-behavioral scoring block of `calculate_risk_score`. -/
def scoreHuman (likelihood : String) (r : Risk) : Risk :=
  if likelihood == "low" then
    { r with total_score := r.total_score + 20, red_flags := r.red_flags ++ ["Bot-like behavior patterns"] }
  else if likelihood == "high" then
    { r with green_flags := r.green_flags ++ ["Human-like behavior patterns"] }
  else r

/-- Mouse-behavior scoring block of `calculate_risk_score` (the bot
indicator, when present, is a non-empty truthy string). -/
def scoreMouse (ind : Option String) (curves : Bool) (r : Risk) : Risk :=
  let s := ind.getD ""
  if s != "" then
    { r with total_score := r.total_score + 10, red_flags := r.red_flags ++ ["Mouse: " ++ s] }
  else if curves then
    { r with green_flags := r.green_flags ++ ["Natural mouse movement curves"] }
  else r

/-- Click-behavior scoring block of `calculate_risk_score`. -/
def scoreClick (ind : Option String) (r : Risk) : Risk :=
  let s := ind.getD ""
  if s != "" then
    { r with total_score := r.total_score + 10, red_flags := r.red_flags ++ ["Click: " ++ s] }
  else r

/-- VM scoring block of `calculate_risk_score`. -/
def scoreVM (isVm : Bool) (r : Risk) : Risk :=
  if isVm then
    { r with total_score := r.total_score + 15, red_flags := r.red_flags ++ ["Running in virtual machine"] }
  else r

/-- Timing scoring block of `calculate_risk_score`. -/
def scoreTiming (susp : String) (reason : Option String) (r : Risk) : Risk :=
  if susp == "high" then
    { r with total_score := r.total_score + 15,
             red_flags := r.red_flags ++ ["Timing: " ++ reason.getD "Too fast"] }
  else r

/-- Browser-extension scoring block of `calculate_risk_score`. -/
def scoreExtensions (privacy : Bool) (r : Risk) : Risk :=
  if privacy then
    { r with green_flags := r.green_flags ++ ["Privacy-aware (ad blocker detected)"] }
  else r

/-- The risk level / visitor quality pair derived from the capped
score (lines 991-1005 of the source). -/
def riskLevelOf (s : Nat) : String × String :=
  if s ≥ 70 then ("critical", "bad")
  else if s ≥ 50 then ("high", "bad")
  else if s ≥ 30 then ("medium", "suspicious")
  else if s ≥ 15 then ("low", "acceptable")
  else ("minimal", "good")

/-- Final block of `calculate_risk_score`: cap the score at 100, derive
the level/quality pair, then compute the confidence. -/
def finalize (r : Risk) : Risk :=
  let capped := min r.total_score 100
  let lq := riskLevelOf capped
  { r with total_score := capped, risk_level := lq.1, visitor_quality := lq.2,
           confidence := min 100 (capped + r.red_flags.length * 5) }

/-- The fields of the per-domain findings that `calculate_risk_score`
reads. -/
structure RiskInputs where
  header_quality : String
  ua_quality : String
  fp_quality : String
  proxy_risk : String
  automation_confidence : String
  consistency_failed : Nat
  threat_level : String
  human_likelihood : String
  mouse_bot_indicator : Option String
  mouse_has_human_curves : Bool
  click_bot_indicator : Option String
  is_likely_vm : Bool
  timing_suspicion : String
  timing_reason : Option String
  privacy_concerned : Bool

/-- `VisitorAnalyzer.calculate_risk_score`: the sequential fold of the
scoring blocks, in source order, followed by the final block. -/
def calculate_risk_score (i : RiskInputs) : Risk :=
  finalize
    (scoreExtensions i.privacy_concerned
      (scoreTiming i.timing_suspicion i.timing_reason
        (scoreVM i.is_likely_vm
          (scoreClick i.click_bot_indicator
            (scoreMouse i.mouse_bot_indicator i.mouse_has_human_curves
              (scoreHuman i.human_likelihood
                (scoreThreat i.threat_level
                  (scoreConsistency i.consistency_failed
                    (scoreAutomation i.automation_confidence
                      (scoreProxy i.proxy_risk
                        (scoreFingerprint i.fp_quality
                          (scoreUA i.ua_quality
                            (scoreHeader i.header_quality risk0)))))))))))))

/-- The request context consumed by the pipeline: transport-layer
inputs plus the externally parsed user-agent attributes. -/
structure Request where
  headers : List (String × String)
  remote_addr : String
  method : String
  path : String
  protocol : String
  port : String
  is_secure : Bool
  cipher : String
  tls_version : String
  parsed : ParsedUA

/-- Result record of `analyze_basic_info` (timestamp, read from the
system clock, is external and omitted). -/
structure BasicInfo where
  ip_address : String
  method : String
  path : String
  protocol : String
  port : String
  is_secure : Bool

/-- The full per-request results map assembled by `analyze`. -/
structure Results where
  ip_address : String
  basic_info : BasicInfo
  header_analysis : HeaderAnalysis
  user_agent_analysis : UAAnalysis
  browser_fingerprint : FPAnalysis
  proxy_vpn_detection : ProxyDetection
  automation_detection : AutomationDetection
  consistency_checks : Consistency
  threat_indicators : Threats
  tls_analysis : TlsAnalysis
  behavioral_signals : Behavioral
  advanced_behavioral : Advanced
  vm_detection : VMDetection
  browser_extensions : Extensions
  timing_analysis : TimingAnalysis
  css_media_queries : CssMedia
  speech_synthesis : Speech
  client_hints : ClientHints
  risk_assessment : Risk

/-- Extraction of the aggregator inputs from the analyzer findings
(the fields `calculate_risk_score` reads out of `self.results`). -/
def riskInputsOf (ha : HeaderAnalysis) (uaA : UAAnalysis) (fpA : FPAnalysis)
    (px : ProxyDetection) (au : AutomationDetection) (cs : Consistency)
    (th : Threats) (adv : Advanced) (vm : VMDetection) (ext : Extensions)
    (tm : TimingAnalysis) : RiskInputs :=
  { header_quality := ha.header_quality
    ua_quality := uaA.quality
    fp_quality := fpA.quality
    proxy_risk := px.risk_level
    automation_confidence := au.confidence
    consistency_failed := cs.failed
    threat_level := th.threat_level
    human_likelihood := adv.human_likelihood
    mouse_bot_indicator := adv.mouse_behavior.bind (fun m => m.bot_indicator)
    mouse_has_human_curves :=
      (adv.mouse_behavior.map (fun m => truthy m.has_human_curves)).getD false
    click_bot_indicator := adv.click_behavior.bind (fun c => c.bot_indicator)
    is_likely_vm := vm.is_likely_vm
    timing_suspicion := tm.suspicion_level
    timing_reason := tm.reason
    privacy_concerned := ext.privacy_concerned }

/-- `VisitorAnalyzer.analyze`: build the context (falsy client
fingerprints are replaced by an empty map), run every analyzer in
source order, then aggregate.  An exception anywhere aborts the whole
computation (caught at the endpoint boundary). -/
def analyze (req : Request) (client_fingerprint : Value) : Except PyErr Results := do
  let fp := if truthy client_fingerprint then client_fingerprint else Value.dict []
  let ip := get_client_ip req.headers req.remote_addr
  let ua := (hGetCI req.headers "User-Agent").getD ""
  let basic : BasicInfo :=
    { ip_address := ip, method := req.method, path := req.path,
      protocol := req.protocol, port := req.port, is_secure := req.is_secure }
  let ha := analyze_headers req.headers
  let uaA := analyze_user_agent ua req.parsed
  let fpA ← analyze_browser_fingerprint fp
  let px ← detect_proxy_vpn req.headers ip fp
  let au ← detect_automation fp
  let cs ← check_consistency fp req.parsed req.headers
  let th := detect_threats ua req.path req.method
  let tls ← analyze_tls req.protocol req.is_secure req.cipher req.tls_version fp
  let bh ← analyze_behavioral_signals fp
  let adv ← analyze_advanced_behavioral fp
  let vm ← analyze_vm_detection fp
  let ext ← analyze_extensions fp
  let tm ← analyze_timing fp
  let css ← analyze_css_media fp
  let sp ← analyze_speech fp
  let ch ← analyze_client_hints fp
  let risk := calculate_risk_score (riskInputsOf ha uaA fpA px au cs th adv vm ext tm)
  pure { ip_address := ip, basic_info := basic, header_analysis := ha,
         user_agent_analysis := uaA, browser_fingerprint := fpA,
         proxy_vpn_detection := px, automation_detection := au,
         consistency_checks := cs, threat_indicators := th, tls_analysis := tls,
         behavioral_signals := bh, advanced_behavioral := adv, vm_detection := vm,
         browser_extensions := ext, timing_analysis := tm, css_media_queries := css,
         speech_synthesis := sp, client_hints := ch, risk_assessment := risk }

/-- Outcome of `request.get_json()` on the endpoint, an external
(Flask) call: it raises on a body that is not valid JSON, returns no
data when there is nothing to parse, or returns the parsed value. -/
inductive BodyParse where
  | raises : BodyParse
  | noData : BodyParse
  | parsed : Value → BodyParse

/-- The structured endpoint response: a success flag and, on success,
the full results. -/
structure AnalyzeResponse where
  success : Bool
  results : Option Results

/-- The `/analyze` endpoint `analyze_visitor`: any exception (from body
parsing or from the pipeline) is caught and answered with a failure
response and HTTP status 500. -/
def analyze_visitor (req : Request) (body : BodyParse) : AnalyzeResponse × Nat :=
  match body with
  | .raises => ({ success := false, results := none }, 500)
  | .noData =>
    match analyze req (.dict []) with
    | .ok res => ({ success := true, results := some res }, 200)
    | .error _ => ({ success := false, results := none }, 500)
  | .parsed v =>
    let cf : Except PyErr Value :=
      if truthy v then v.pyGet "fingerprint" (.dict []) else .ok (.dict [])
    match cf with
    | .error _ => ({ success := false, results := none }, 500)
    | .ok fpv =>
      match analyze req fpv with
      | .ok res => ({ success := true, results := some res }, 200)
      | .error _ => ({ success := false, results := none }, 500)

/-! ## Well-typed payloads

`wtKey` records, for each fingerprint key an analyzer reads, the type
its value is expected to have; every key an analyzer only tests for
truthiness or equality accepts any value.  A payload is well typed when
every present key satisfies its expectation; absent keys are always
acceptable (they resolve to the documented defaults). -/

/-- Is the value a string? -/
def isStrV : Value → Bool
  | .str _ => true
  | _ => false

/-- Is the value a list? -/
def isListV : Value → Bool
  | .list _ => true
  | _ => false

/-- Is the value a dictionary? -/
def isDictV : Value → Bool
  | .dict _ => true
  | _ => false

/-- Is the value a number? -/
def isNumV : Value → Bool
  | .num _ => true
  | _ => false

/-- Is the value a boolean? -/
def isBoolV : Value → Bool
  | .bool _ => true
  | _ => false

/-- Is the value null? -/
def isNullV : Value → Bool
  | .null => true
  | _ => false

/-- An inner numeric field: absent, or a number. -/
def numField (mm : List (String × Value)) (k : String) : Bool :=
  match valOf mm k with
  | none => true
  | some v => isNumV v

/-- The expected type of each fingerprint key that an analyzer consumes
beyond truthiness. -/
def wtKey (k : String) (v : Value) : Bool :=
  if k == "platform" || k == "language" then isStrV v
  else if k == "languages" then isListV v
  else if k == "timezone_offset" then isNumV v || isNullV v
  else if k == "hardware_concurrency" || k == "screen_width" || k == "screen_height"
       || k == "speech_voices_count" then isNumV v
  else if k == "ip_info" then isDictV v
  else if k == "webrtc_ips" then
    (match v with
     | .list xs => xs.all isStrV
     | _ => false)
  else if k == "has_mouse_movement" || k == "has_keyboard_input" || k == "has_page_focus"
       || k == "has_scroll" then isBoolV v
  else if k == "mouse_behavior" then
    (match v with
     | .dict mm => numField mm "average_velocity" && numField mm "max_velocity" &&
         numField mm "average_acceleration"
     | _ => false)
  else if k == "click_behavior" then
    (match v with
     | .dict mm => numField mm "average_click_interval" && numField mm "click_rhythm_variance"
     | _ => false)
  else if k == "scroll_behavior" then
    (match v with
     | .dict mm => numField mm "average_scroll_velocity"
     | _ => false)
  else if k == "keyboard_behavior" then
    (match v with
     | .dict mm => numField mm "average_dwell_time" && numField mm "average_flight_time" &&
         numField mm "typing_rhythm"
     | _ => false)
  else if k == "advanced_timing" then
    (match v with
     | .dict mm => numField mm "time_to_first_click" && numField mm "time_to_first_interaction"
     | _ => false)
  else if k == "vm_detection" || k == "browser_extensions" || k == "css_media_queries"
       || k == "client_hints" || k == "client_hints_high_entropy" then isDictV v
  else true

/-- A payload is well typed when every entry satisfies `wtKey`. -/
def wtPayload (m : List (String × Value)) : Bool :=
  m.all (fun p => wtKey p.1 p.2)

theorem wt_some {m : List (String × Value)} {k : String} {v : Value}
    (hwt : wtPayload m = true) (h : valOf m k = some v) : wtKey k v = true := by
  induction m with
  | nil => simp [valOf] at h
  | cons p rest ih =>
    simp only [wtPayload, List.all_cons, Bool.and_eq_true] at hwt
    simp only [valOf] at h
    by_cases hk : (p.1 == k) = true
    · rw [if_pos hk] at h
      cases h
      rw [show p.1 = k from by simpa using hk] at hwt
      exact hwt.1
    · rw [if_neg hk] at h
      exact ih hwt.2 h

theorem bind_isOk {α β : Type} {x : Except PyErr α} {f : α → Except PyErr β}
    (hx : ∃ a, x = .ok a) (hf : ∀ a, x = .ok a → ∃ b, f a = .ok b) :
    ∃ b, (x >>= f) = .ok b := by
  obtain ⟨a, ha⟩ := hx
  obtain ⟨b, hb⟩ := hf a ha
  exact ⟨b, by rw [ha]; exact hb⟩

theorem ite_isOk {α : Type} {c : Prop} [Decidable c] {x y : Except PyErr α}
    (hx : c → ∃ a, x = .ok a) (hy : ¬c → ∃ a, y = .ok a) :
    ∃ a, (if c then x else y) = .ok a := by
  by_cases h : c
  · rw [if_pos h]; exact hx h
  · rw [if_neg h]; exact hy h

/-! ## The documented weight table and thresholds (spec side)

The following definitions restate the scoring weight table of the
specification as one delta per signal, to be compared against the
sequential fold above. -/

/-- Spec-side header weight. -/
def headerDelta (q : String) : Nat :=
  if q == "bad" then 25 else if q == "suspicious" then 15 else 0

/-- Spec-side user-agent weight. -/
def uaDelta (q : String) : Nat :=
  if q == "bad" then 20 else if q == "suspicious" then 10 else 0

/-- Spec-side fingerprint weight. -/
def fpDelta (q : String) : Nat :=
  if q == "bad" then 30 else if q == "suspicious" then 15 else 0

/-- Spec-side proxy/VPN weight. -/
def proxyDelta (lvl : String) : Nat :=
  if lvl == "high" then 20 else if lvl == "medium" then 10 else 0

/-- Spec-side automation weight. -/
def automationDelta (conf : String) : Nat :=
  if conf == "very_high" || conf == "high" then 25
  else if conf == "medium" then 10 else 0

/-- Spec-side consistency-failure weight. -/
def consistencyDelta (failed : Nat) : Nat :=
  if failed > 2 then 15 else if failed > 0 then 5 else 0

/-- Spec-side threat weight. -/
def threatDelta (lvl : String) : Nat :=
  if lvl == "critical" then 50 else if lvl == "high" then 30 else 0

/-- Spec-side behavioral-likelihood weight. -/
def humanDelta (likelihood : String) : Nat :=
  if likelihood == "low" then 20 else 0

/-- Spec-side mouse bot-indicator weight. -/
def mouseDelta (ind : Option String) : Nat :=
  if ind.getD "" != "" then 10 else 0

/-- Spec-side click bot-indicator weight. -/
def clickDelta (ind : Option String) : Nat :=
  if ind.getD "" != "" then 10 else 0

/-- Spec-side virtual-machine weight. -/
def vmDelta (isVm : Bool) : Nat :=
  if isVm then 15 else 0

/-- Spec-side timing-suspicion weight. -/
def timingDelta (susp : String) : Nat :=
  if susp == "high" then 15 else 0

/-- Spec-side additive sum of the weight table, before capping. -/
def rawScore (i : RiskInputs) : Nat :=
  headerDelta i.header_quality + uaDelta i.ua_quality + fpDelta i.fp_quality +
  proxyDelta i.proxy_risk + automationDelta i.automation_confidence +
  consistencyDelta i.consistency_failed + threatDelta i.threat_level +
  humanDelta i.human_likelihood + mouseDelta i.mouse_bot_indicator +
  clickDelta i.click_bot_indicator + vmDelta i.is_likely_vm +
  timingDelta i.timing_suspicion

/-- Spec-side risk level: the documented thresholds, each boundary
value mapping to the higher tier. -/
def specRiskLevel (s : Nat) : String :=
  if s ≥ 70 then "critical"
  else if s ≥ 50 then "high"
  else if s ≥ 30 then "medium"
  else if s ≥ 15 then "low"
  else "minimal"

/-- Spec-side visitor quality paired with the risk level. -/
def specVisitorQuality (s : Nat) : String :=
  if s ≥ 70 then "bad"
  else if s ≥ 50 then "bad"
  else if s ≥ 30 then "suspicious"
  else if s ≥ 15 then "acceptable"
  else "good"

/-! ## Helper lemmas about the scoring blocks -/

theorem scoreHeader_total (q : String) (r : Risk) :
    (scoreHeader q r).total_score = r.total_score + headerDelta q := by
  unfold scoreHeader headerDelta; split_ifs <;> rfl

theorem scoreUA_total (q : String) (r : Risk) :
    (scoreUA q r).total_score = r.total_score + uaDelta q := by
  unfold scoreUA uaDelta; split_ifs <;> rfl

theorem scoreFingerprint_total (q : String) (r : Risk) :
    (scoreFingerprint q r).total_score = r.total_score + fpDelta q := by
  unfold scoreFingerprint fpDelta; split_ifs <;> rfl

theorem scoreProxy_total (lvl : String) (r : Risk) :
    (scoreProxy lvl r).total_score = r.total_score + proxyDelta lvl := by
  unfold scoreProxy proxyDelta; split_ifs <;> rfl

theorem scoreAutomation_total (conf : String) (r : Risk) :
    (scoreAutomation conf r).total_score = r.total_score + automationDelta conf := by
  unfold scoreAutomation automationDelta; split_ifs <;> rfl

theorem scoreConsistency_total (failed : Nat) (r : Risk) :
    (scoreConsistency failed r).total_score = r.total_score + consistencyDelta failed := by
  unfold scoreConsistency consistencyDelta; split_ifs <;> rfl

theorem scoreThreat_total (lvl : String) (r : Risk) :
    (scoreThreat lvl r).total_score = r.total_score + threatDelta lvl := by
  unfold scoreThreat threatDelta; split_ifs <;> rfl

theorem scoreHuman_total (likelihood : String) (r : Risk) :
    (scoreHuman likelihood r).total_score = r.total_score + humanDelta likelihood := by
  unfold scoreHuman humanDelta; split_ifs <;> rfl

theorem scoreMouse_total (ind : Option String) (curves : Bool) (r : Risk) :
    (scoreMouse ind curves r).total_score = r.total_score + mouseDelta ind := by
  unfold scoreMouse mouseDelta; simp only []; split_ifs <;> rfl

theorem scoreClick_total (ind : Option String) (r : Risk) :
    (scoreClick ind r).total_score = r.total_score + clickDelta ind := by
  unfold scoreClick clickDelta; simp only []; split_ifs <;> rfl

theorem scoreVM_total (isVm : Bool) (r : Risk) :
    (scoreVM isVm r).total_score = r.total_score + vmDelta isVm := by
  unfold scoreVM vmDelta; split_ifs <;> rfl

theorem scoreTiming_total (susp : String) (reason : Option String) (r : Risk) :
    (scoreTiming susp reason r).total_score = r.total_score + timingDelta susp := by
  unfold scoreTiming timingDelta; split_ifs <;> rfl

theorem scoreExtensions_total (privacy : Bool) (r : Risk) :
    (scoreExtensions privacy r).total_score = r.total_score := by
  unfold scoreExtensions; split_ifs <;> rfl

theorem finalize_total (r : Risk) :
    (finalize r).total_score = min r.total_score 100 := rfl

theorem finalize_level (r : Risk) :
    (finalize r).risk_level = (riskLevelOf (min r.total_score 100)).1 := rfl

theorem finalize_quality (r : Risk) :
    (finalize r).visitor_quality = (riskLevelOf (min r.total_score 100)).2 := rfl

theorem finalize_genuine (r : Risk) :
    (finalize r).is_genuine = r.is_genuine := rfl

theorem finalize_flags (r : Risk) :
    (finalize r).red_flags = r.red_flags := rfl

theorem finalize_confidence (r : Risk) :
    (finalize r).confidence = min 100 (min r.total_score 100 + r.red_flags.length * 5) := rfl

theorem riskLevelOf_spec (s : Nat) :
    (riskLevelOf s).1 = specRiskLevel s ∧ (riskLevelOf s).2 = specVisitorQuality s := by
  unfold riskLevelOf specRiskLevel specVisitorQuality
  split_ifs <;> simp_all

theorem scoreHeader_genuine (q : String) (r : Risk) :
    (scoreHeader q r).is_genuine = r.is_genuine := by
  unfold scoreHeader; split_ifs <;> rfl

theorem scoreUA_genuine (q : String) (r : Risk) :
    (scoreUA q r).is_genuine = r.is_genuine := by
  unfold scoreUA; split_ifs <;> rfl

theorem scoreFingerprint_genuine (q : String) (r : Risk) :
    (scoreFingerprint q r).is_genuine = (r.is_genuine && !(q == "bad")) := by
  unfold scoreFingerprint; split_ifs with h1 h2 <;> simp_all

theorem scoreProxy_genuine (lvl : String) (r : Risk) :
    (scoreProxy lvl r).is_genuine = r.is_genuine := by
  unfold scoreProxy; split_ifs <;> rfl

theorem scoreAutomation_genuine (conf : String) (r : Risk) :
    (scoreAutomation conf r).is_genuine =
      (r.is_genuine && !(conf == "very_high" || conf == "high")) := by
  unfold scoreAutomation
  split_ifs with h1 h2 <;> simp [h1]

theorem scoreConsistency_genuine (failed : Nat) (r : Risk) :
    (scoreConsistency failed r).is_genuine = r.is_genuine := by
  unfold scoreConsistency; split_ifs <;> rfl

theorem scoreThreat_genuine (lvl : String) (r : Risk) :
    (scoreThreat lvl r).is_genuine = (r.is_genuine && !(lvl == "critical")) := by
  unfold scoreThreat; split_ifs with h1 h2 <;> simp_all

theorem scoreHuman_genuine (likelihood : String) (r : Risk) :
    (scoreHuman likelihood r).is_genuine = r.is_genuine := by
  unfold scoreHuman; split_ifs <;> rfl

theorem scoreMouse_genuine (ind : Option String) (curves : Bool) (r : Risk) :
    (scoreMouse ind curves r).is_genuine = r.is_genuine := by
  unfold scoreMouse; simp only []; split_ifs <;> rfl

theorem scoreClick_genuine (ind : Option String) (r : Risk) :
    (scoreClick ind r).is_genuine = r.is_genuine := by
  unfold scoreClick; simp only []; split_ifs <;> rfl

theorem scoreVM_genuine (isVm : Bool) (r : Risk) :
    (scoreVM isVm r).is_genuine = r.is_genuine := by
  unfold scoreVM; split_ifs <;> rfl

theorem scoreTiming_genuine (susp : String) (reason : Option String) (r : Risk) :
    (scoreTiming susp reason r).is_genuine = r.is_genuine := by
  unfold scoreTiming; split_ifs <;> rfl

theorem scoreExtensions_genuine (privacy : Bool) (r : Risk) :
    (scoreExtensions privacy r).is_genuine = r.is_genuine := by
  unfold scoreExtensions; split_ifs <;> rfl

theorem calculate_total_eq (i : RiskInputs) :
    (calculate_risk_score i).total_score = min (rawScore i) 100 := by
  unfold calculate_risk_score
  rw [finalize_total]
  simp only [scoreExtensions_total, scoreTiming_total, scoreVM_total, scoreClick_total,
    scoreMouse_total, scoreHuman_total, scoreThreat_total, scoreConsistency_total,
    scoreAutomation_total, scoreProxy_total, scoreFingerprint_total, scoreUA_total,
    scoreHeader_total]
  unfold rawScore
  simp only [risk0]
  omega

theorem calculate_genuine_eq (i : RiskInputs) :
    (calculate_risk_score i).is_genuine =
      ((!(i.fp_quality == "bad") &&
        !(i.automation_confidence == "very_high" || i.automation_confidence == "high")) &&
        !(i.threat_level == "critical")) := by
  unfold calculate_risk_score
  rw [finalize_genuine]
  simp only [scoreExtensions_genuine, scoreTiming_genuine, scoreVM_genuine,
    scoreClick_genuine, scoreMouse_genuine, scoreHuman_genuine, scoreThreat_genuine,
    scoreConsistency_genuine, scoreAutomation_genuine, scoreProxy_genuine,
    scoreFingerprint_genuine, scoreUA_genuine, scoreHeader_genuine]
  unfold risk0
  simp

/-! ## Claims C1-C3 -/

/-- C1: for every aggregator input, the assessment's total_score lies
between 0 and 100 inclusive and equals the additive weight-table sum
capped at 100, and risk_level with its paired visitor_quality is
determined from total_score exactly by the documented thresholds, each
boundary value (15, 30, 50, 70) mapping to the higher tier. -/
theorem c1_total_score_bounds_and_thresholds (i : RiskInputs) :
    0 ≤ (calculate_risk_score i).total_score ∧
    (calculate_risk_score i).total_score ≤ 100 ∧
    (calculate_risk_score i).total_score = min (rawScore i) 100 ∧
    (calculate_risk_score i).risk_level = specRiskLevel (calculate_risk_score i).total_score ∧
    (calculate_risk_score i).visitor_quality =
      specVisitorQuality (calculate_risk_score i).total_score ∧
    (specRiskLevel 70 = "critical" ∧ specRiskLevel 69 = "high" ∧
     specRiskLevel 50 = "high" ∧ specRiskLevel 49 = "medium" ∧
     specRiskLevel 30 = "medium" ∧ specRiskLevel 29 = "low" ∧
     specRiskLevel 15 = "low" ∧ specRiskLevel 14 = "minimal" ∧
     specVisitorQuality 70 = "bad" ∧ specVisitorQuality 50 = "bad" ∧
     specVisitorQuality 30 = "suspicious" ∧ specVisitorQuality 15 = "acceptable" ∧
     specVisitorQuality 14 = "good") := by
  refine ⟨Nat.zero_le _, ?_, calculate_total_eq i, ?_, ?_, by decide⟩
  · rw [calculate_total_eq]; exact Nat.min_le_right _ _
  · unfold calculate_risk_score
    rw [finalize_level, finalize_total, (riskLevelOf_spec _).1]
  · unfold calculate_risk_score
    rw [finalize_quality, finalize_total, (riskLevelOf_spec _).2]

/-- C2: the assessment's is_genuine is false exactly when fingerprint
quality is bad, automation confidence is high or very_high, or threat
level is critical; each scoring block either leaves is_genuine
untouched or conjoins it with its own condition, so a false value is
never reset to true during aggregation, and it keeps its default true
otherwise. -/
theorem c2_is_genuine_iff (i : RiskInputs) :
    ((calculate_risk_score i).is_genuine = false ↔
      (i.fp_quality = "bad" ∨ i.automation_confidence = "very_high" ∨
       i.automation_confidence = "high" ∨ i.threat_level = "critical")) ∧
    (∀ q r, (scoreFingerprint q r).is_genuine = (r.is_genuine && !(q == "bad"))) ∧
    (∀ c r, (scoreAutomation c r).is_genuine =
      (r.is_genuine && !(c == "very_high" || c == "high"))) ∧
    (∀ t r, (scoreThreat t r).is_genuine = (r.is_genuine && !(t == "critical"))) ∧
    (∀ q r, (scoreHeader q r).is_genuine = r.is_genuine) ∧
    (∀ q r, (scoreUA q r).is_genuine = r.is_genuine) ∧
    (∀ l r, (scoreProxy l r).is_genuine = r.is_genuine) ∧
    (∀ f r, (scoreConsistency f r).is_genuine = r.is_genuine) ∧
    (∀ l r, (scoreHuman l r).is_genuine = r.is_genuine) ∧
    (∀ m c r, (scoreMouse m c r).is_genuine = r.is_genuine) ∧
    (∀ c r, (scoreClick c r).is_genuine = r.is_genuine) ∧
    (∀ v r, (scoreVM v r).is_genuine = r.is_genuine) ∧
    (∀ s t r, (scoreTiming s t r).is_genuine = r.is_genuine) ∧
    (∀ p r, (scoreExtensions p r).is_genuine = r.is_genuine) ∧
    (∀ r, (finalize r).is_genuine = r.is_genuine) := by
  refine ⟨?_, scoreFingerprint_genuine, scoreAutomation_genuine, scoreThreat_genuine,
    scoreHeader_genuine, scoreUA_genuine, scoreProxy_genuine, scoreConsistency_genuine,
    scoreHuman_genuine, scoreMouse_genuine, scoreClick_genuine, scoreVM_genuine,
    scoreTiming_genuine, scoreExtensions_genuine, finalize_genuine⟩
  rw [calculate_genuine_eq]
  cases hf : (i.fp_quality == "bad") <;>
    cases hv : (i.automation_confidence == "very_high") <;>
      cases hh : (i.automation_confidence == "high") <;>
        cases ht : (i.threat_level == "critical") <;>
          simp_all [beq_iff_eq]

/-- C3: the stored confidence equals min(100, total_score + 5 x number
of red flags), recomputable from the assessment's own (already capped)
total_score and red_flags list. -/
theorem c3_confidence_formula (i : RiskInputs) :
    (calculate_risk_score i).confidence =
      min 100 ((calculate_risk_score i).total_score +
        5 * (calculate_risk_score i).red_flags.length) := by
  unfold calculate_risk_score
  rw [finalize_confidence, finalize_total, finalize_flags]
  omega

/-- Decidable equality on endpoint results, used to evaluate the
scenario theorems by computation. -/
instance {α : Type} [DecidableEq α] : DecidableEq (Except PyErr α) := fun x y =>
  match x, y with
  | .ok a, .ok b =>
    if h : a = b then isTrue (by rw [h])
    else isFalse (fun hh => h (Except.ok.inj hh))
  | .error a, .error b =>
    if h : a = b then isTrue (by rw [h])
    else isFalse (fun hh => h (Except.error.inj hh))
  | .ok _, .error _ => isFalse (fun hh => Except.noConfusion hh)
  | .error _, .ok _ => isFalse (fun hh => Except.noConfusion hh)

/-! ## Claim C5: the empty-fingerprint scenario -/

/-- A realistic modern-browser user-agent (111 characters). -/
def chromeUA : String :=
  "Mozilla/5.0 (Windows NT 10.0; Win64; x64) AppleWebKit/537.36 (KHTML, like Gecko) Chrome/120.0.0.0 Safari/537.36"

/-- The external parse of `chromeUA` (desktop Chrome on Windows, not a
bot). -/
def chromeParsed : ParsedUA :=
  { browser_family := "Chrome", os_family := "Windows", is_bot := false }

/-- Standard-compliant browser headers, including Accept-Language. -/
def scenario_headers : List (String × String) :=
  [("User-Agent", chromeUA),
   ("Accept", "text/html,application/xhtml+xml,application/xml;q=0.9,image/avif,image/webp,*/*;q=0.8"),
   ("Accept-Language", "en-US,en;q=0.9"),
   ("Accept-Encoding", "gzip, deflate, br"),
   ("Connection", "keep-alive"),
   ("Upgrade-Insecure-Requests", "1")]

/-- The scenario request: standard headers, plain GET of the root path,
no forwarding headers. -/
def scenario_request : Request :=
  { headers := scenario_headers, remote_addr := "203.0.113.7", method := "GET",
    path := "/", protocol := "HTTP/1.1", port := "5000", is_secure := false,
    cipher := "Unknown", tls_version := "Unknown", parsed := chromeParsed }

/-- C5: for the scenario request with an empty fingerprint payload,
the pipeline grades header quality good, user-agent quality good,
fingerprint quality bad (is_genuine false, sole red flag "Manipulated
fingerprint"), proxy risk none, automation confidence low, exactly one
consistency failure (the hardware-concurrency check, no flag), threat
none, behavioral likelihood medium, giving total_score 35, risk_level
medium, visitor_quality suspicious and confidence 40. -/
theorem c5_empty_fingerprint_scenario :
    50 ≤ chromeUA.length ∧
    (analyze scenario_request (.dict [])).map (fun r => r.header_analysis.header_quality) = .ok "good" ∧
    (analyze scenario_request (.dict [])).map (fun r => r.user_agent_analysis.quality) = .ok "good" ∧
    (analyze scenario_request (.dict [])).map (fun r => r.browser_fingerprint.quality) = .ok "bad" ∧
    (analyze scenario_request (.dict [])).map (fun r => r.risk_assessment.is_genuine) = .ok false ∧
    (analyze scenario_request (.dict [])).map (fun r => r.risk_assessment.red_flags) =
      .ok ["Manipulated fingerprint"] ∧
    (analyze scenario_request (.dict [])).map (fun r => r.proxy_vpn_detection.risk_level) = .ok "none" ∧
    (analyze scenario_request (.dict [])).map (fun r => r.automation_detection.confidence) = .ok "low" ∧
    (analyze scenario_request (.dict [])).map (fun r => r.consistency_checks.failed) = .ok 1 ∧
    (analyze scenario_request (.dict [])).map
      (fun r => r.consistency_checks.checks.map (fun c => (c.check, c.status))) =
      .ok ([("Hardware Concurrency", "failed")]) ∧
    (analyze scenario_request (.dict [])).map (fun r => r.threat_indicators.threat_level) = .ok "none" ∧
    (analyze scenario_request (.dict [])).map (fun r => r.advanced_behavioral.human_likelihood) =
      .ok "medium" ∧
    (analyze scenario_request (.dict [])).map (fun r => r.risk_assessment.total_score) = .ok 35 ∧
    (analyze scenario_request (.dict [])).map (fun r => r.risk_assessment.risk_level) = .ok "medium" ∧
    (analyze scenario_request (.dict [])).map (fun r => r.risk_assessment.visitor_quality) =
      .ok "suspicious" ∧
    (analyze scenario_request (.dict [])).map (fun r => r.risk_assessment.confidence) = .ok 40 := by
  refine ⟨by decide, ?_, ?_, ?_, ?_, ?_, ?_, ?_, ?_, ?_, ?_, ?_, ?_, ?_, ?_, ?_⟩ <;> decide

/-! ## Claim C7: header quality grading -/

/-- A header map with three missing standard headers (Accept-Encoding,
Connection, Upgrade-Insecure-Requests) and no suspicious pattern: five
headers in total, a specific Accept value, Accept-Language present, no
automation substring in any value. -/
def three_missing_headers : List (String × String) :=
  [("User-Agent", chromeUA), ("Accept", "text/html"), ("Accept-Language", "en-US"),
   ("X-Custom-A", "1"), ("X-Custom-B", "2")]

/-- C7 counterexample: this request records zero suspicious patterns,
so the claim grades it good; the code grades it suspicious because more
than one standard header is missing. -/
theorem c7_counterexample :
    (analyze_headers three_missing_headers).suspicious_patterns.length = 0 ∧
    (analyze_headers three_missing_headers).missing_standard_headers.length = 3 ∧
    (analyze_headers three_missing_headers).header_quality = "suspicious" ∧
    (analyze_headers three_missing_headers).header_quality ≠ "good" := by
  refine ⟨?_, ?_, ?_, ?_⟩ <;> decide

/-- C7 amended: the grade is bad exactly when more than 2 suspicious
patterns or more than 3 missing standard headers were recorded;
suspicious exactly when the bad condition does not hold and either any
suspicious pattern is present or more than 1 standard header is
missing; good in all other cases. -/
theorem c7_header_quality_characterization (hs : List (String × String)) :
    ((analyze_headers hs).header_quality = "bad" ↔
      ((analyze_headers hs).suspicious_patterns.length > 2 ∨
       (analyze_headers hs).missing_standard_headers.length > 3)) ∧
    ((analyze_headers hs).header_quality = "suspicious" ↔
      (¬((analyze_headers hs).suspicious_patterns.length > 2 ∨
         (analyze_headers hs).missing_standard_headers.length > 3) ∧
       ((analyze_headers hs).suspicious_patterns.length > 0 ∨
        (analyze_headers hs).missing_standard_headers.length > 1))) ∧
    ((analyze_headers hs).header_quality = "good" ↔
      (¬((analyze_headers hs).suspicious_patterns.length > 2 ∨
         (analyze_headers hs).missing_standard_headers.length > 3) ∧
       ¬((analyze_headers hs).suspicious_patterns.length > 0 ∨
         (analyze_headers hs).missing_standard_headers.length > 1))) := by
  have hq : (analyze_headers hs).header_quality =
      (if (analyze_headers hs).suspicious_patterns.length > 2 ∨
          (analyze_headers hs).missing_standard_headers.length > 3 then "bad"
       else if (analyze_headers hs).suspicious_patterns.length > 0 ∨
          (analyze_headers hs).missing_standard_headers.length > 1 then "suspicious"
       else "good") := rfl
  rw [hq]
  split_ifs with h1 h2 <;> refine ⟨?_, ?_, ?_⟩ <;> simp_all

/-! ## Claim C8: client address resolution -/

/-- C8 counterexample: with an X-Forwarded-For header present but
carrying an empty value, the code falls through to X-Real-IP, while the
claim requires the first comma-separated value of X-Forwarded-For (the
empty string). -/
theorem c8_counterexample :
    hMem [("X-Forwarded-For", ""), ("X-Real-IP", "9.9.9.9")] "X-Forwarded-For" = true ∧
    get_client_ip [("X-Forwarded-For", ""), ("X-Real-IP", "9.9.9.9")] "7.7.7.7" = "9.9.9.9" ∧
    pyStrip ((pySplit "" (Char.ofNat 44)).headD "") ≠ "9.9.9.9" := by
  exact ⟨rfl, rfl, by decide⟩

/-- C8 amended: the resolved address is the first comma-separated value
(trimmed) of X-Forwarded-For when that header is present with a
non-empty value; otherwise the value of X-Real-IP when present with a
non-empty value; otherwise the transport-layer peer address.  With both
example headers present, the resolved address is 1.2.3.4. -/
theorem c8_client_ip_precedence (hs : List (String × String)) (ra : String) :
    (∀ v, hGetCI hs "X-Forwarded-For" = some v → v ≠ "" →
      get_client_ip hs ra = pyStrip ((pySplit v (Char.ofNat 44)).headD "")) ∧
    ((hGetCI hs "X-Forwarded-For" = none ∨ hGetCI hs "X-Forwarded-For" = some "") →
      ∀ w, hGetCI hs "X-Real-IP" = some w → w ≠ "" → get_client_ip hs ra = w) ∧
    ((hGetCI hs "X-Forwarded-For" = none ∨ hGetCI hs "X-Forwarded-For" = some "") →
      (hGetCI hs "X-Real-IP" = none ∨ hGetCI hs "X-Real-IP" = some "") →
      get_client_ip hs ra = ra) ∧
    get_client_ip [("X-Forwarded-For", "1.2.3.4, 5.6.7.8"), ("X-Real-IP", "9.9.9.9")] ra
      = "1.2.3.4" := by
  refine ⟨?_, ?_, ?_, rfl⟩
  · intro v hv hne
    unfold get_client_ip
    rw [hv]
    simp [hne]
  · rintro (h | h) w hw hne <;> unfold get_client_ip <;> rw [h] <;> simp <;> rw [hw] <;> simp [hne]
  · rintro (h | h) (h2 | h2) <;> unfold get_client_ip <;> rw [h] <;> simp <;> rw [h2] <;> simp

/-- Witness for the amended C8 theorem at a concrete request carrying
both example headers. -/
theorem c8_client_ip_witness :
    get_client_ip [("X-Forwarded-For", "1.2.3.4, 5.6.7.8"), ("X-Real-IP", "9.9.9.9")] "7.7.7.7"
      = "1.2.3.4" := by
  have h := (c8_client_ip_precedence
    [("X-Forwarded-For", "1.2.3.4, 5.6.7.8"), ("X-Real-IP", "9.9.9.9")] "7.7.7.7").1
    "1.2.3.4, 5.6.7.8" (by decide) (by decide)
  exact h.trans (by decide)

/-! ## Claim C9: timing suspicion -/

/-- C9 counterexample: a payload reporting time_to_first_click = 0
(which is below 100 ms) yields suspicion none, because the code guards
the comparison with truthiness and 0 is falsy. -/
theorem c9_counterexample :
    (analyze_timing (.dict [("advanced_timing",
        .dict [("time_to_first_click", .num 0)])])).map
      (fun t => t.suspicion_level) = .ok "none" ∧
    (0 : Rat) < 100 := by
  exact ⟨by decide, by norm_num⟩

/-- C9 amended: a truthy (non-zero) reported time-to-first-click below
100 ms yields suspicion high, as does, when no time-to-first-click was
reported, a truthy reported time-to-first-interaction below 50 ms; the
aggregator turns a high suspicion into +15 and a red flag. -/
theorem c9_fast_timing_high_suspicion :
    (∀ (m inner : List (String × Value)) (q : Rat),
      valOf m "advanced_timing" = some (.dict inner) →
      valOf inner "time_to_first_click" = some (.num q) → q ≠ 0 → q < 100 →
      (analyze_timing (.dict m)).map (fun t => t.suspicion_level) = .ok "high") ∧
    (∀ (m inner : List (String × Value)) (q : Rat),
      valOf m "advanced_timing" = some (.dict inner) →
      valOf inner "time_to_first_click" = none →
      valOf inner "time_to_first_interaction" = some (.num q) → q ≠ 0 → q < 50 →
      (analyze_timing (.dict m)).map (fun t => t.suspicion_level) = .ok "high") ∧
    (∀ (reason : Option String) (r : Risk),
      (scoreTiming "high" reason r).total_score = r.total_score + 15 ∧
      (scoreTiming "high" reason r).red_flags =
        r.red_flags ++ ["Timing: " ++ reason.getD "Too fast"]) := by
  refine ⟨?_, ?_, ?_⟩
  · intro m inner q hat hc hq0 hq
    unfold analyze_timing timing_suspicion interaction_suspicion
    simp only [Value.pyGet, hat, Option.getD, bind, Except.bind, hc]
    simp only [truthy, pyLt, pyToNum]
    rw [decide_eq_false hq0, decide_eq_true hq]
    rfl
  · intro m inner q hat hc hi hq0 hq
    unfold analyze_timing timing_suspicion interaction_suspicion
    simp only [Value.pyGet, hat, Option.getD, bind, Except.bind, hc, hi]
    simp only [truthy, pyLt, pyToNum]
    rw [decide_eq_false hq0, decide_eq_true hq]
    rfl
  · intro reason r
    unfold scoreTiming
    simp

/-- Witness for the amended C9 theorem at a concrete payload
(time_to_first_click = 42 ms). -/
theorem c9_fast_timing_witness :
    (analyze_timing (.dict [("advanced_timing",
        .dict [("time_to_first_click", .num 42)])])).map
      (fun t => t.suspicion_level) = .ok "high" :=
  c9_fast_timing_high_suspicion.1 _ _ 42 rfl rfl (by norm_num) (by norm_num)

/-! ## Claim C10: omitted canvas brands the visitor manipulated -/

/-- C10: for every non-empty fingerprint payload whose canvas entry is
absent, falsy, or the string "blocked", the integrity analyzer records
a manipulation indicator, so whenever it completes its finding grades
quality bad; the aggregator then adds +30 with the red flag
"Manipulated fingerprint" and sets is_genuine false. -/
theorem c10_missing_canvas_brands_bad :
    (∀ (m : List (String × Value)) (a : FPAnalysis),
      truthy (.dict m) = true →
      (pyEqStr ((valOf m "canvas").getD .null) "blocked" ||
       !truthy ((valOf m "canvas").getD .null)) = true →
      analyze_browser_fingerprint (.dict m) = .ok a →
      a.quality = "bad" ∧ 0 < a.manipulation_indicators.length) ∧
    (∀ r : Risk,
      (scoreFingerprint "bad" r).total_score = r.total_score + 30 ∧
      (scoreFingerprint "bad" r).red_flags = r.red_flags ++ ["Manipulated fingerprint"] ∧
      (scoreFingerprint "bad" r).is_genuine = false) := by
  constructor
  · intro m a hm hcv hok
    have hcm : 0 < (canvas_manip m).length := by
      unfold canvas_manip
      simp only [hcv]
      simp
    unfold analyze_browser_fingerprint at hok
    rw [hm] at hok
    simp only [Bool.not_true, Bool.false_eq_true, if_false] at hok
    rcases hL : languages_incons m with e | L
    · rw [hL] at hok; simp [bind, Except.bind] at hok
    · rcases hS : screen_incons m with e | S
      · rw [hL, hS] at hok; simp [bind, Except.bind] at hok
      · rw [hL, hS] at hok
        simp only [bind, Except.bind, pure, Except.pure, Except.ok.injEq] at hok
        subst hok
        refine ⟨?_, ?_⟩
        · show (if 0 < (webdriver_manip m ++ headless_manip m ++ canvas_manip m ++
              artifacts_manip m).length then "bad"
            else if (plugins_incons m ++ L ++ webgl_incons m ++ S ++
              timezone_incons m).length > 3 then "suspicious"
            else if 0 < (plugins_incons m ++ L ++ webgl_incons m ++ S ++
              timezone_incons m).length then "acceptable"
            else "good") = "bad"
          rw [if_pos]
          simp only [List.length_append]
          omega
        · show 0 < (webdriver_manip m ++ headless_manip m ++ canvas_manip m ++
            artifacts_manip m).length
          simp only [List.length_append]
          omega
  · intro r
    unfold scoreFingerprint
    simp

/-- Witness for C10 at the concrete non-empty payload
`\x7b"plugins": 1\x7d` (canvas absent). -/
theorem c10_missing_canvas_witness :
    truthy (.dict [("plugins", Value.num 1)]) = true ∧
    (pyEqStr ((valOf [("plugins", Value.num 1)] "canvas").getD .null) "blocked" ||
     !truthy ((valOf [("plugins", Value.num 1)] "canvas").getD .null)) = true ∧
    (∃ a, analyze_browser_fingerprint (.dict [("plugins", Value.num 1)]) = .ok a ∧
      a.quality = "bad" ∧ 0 < a.manipulation_indicators.length) := by
  obtain ⟨a, ha⟩ : ∃ a, analyze_browser_fingerprint (.dict [("plugins", Value.num 1)]) = .ok a :=
    ⟨_, rfl⟩
  exact ⟨by decide, by decide,
    a, ha, c10_missing_canvas_brands_bad.1 _ a (by decide) (by decide) ha⟩

/-! ## Totality of the analyzers on well-typed payloads -/

theorem pyFloat_field_ok {mm : List (String × Value)} {k : String}
    (h : numField mm k = true) :
    ∃ q, pyFloat ((valOf mm k).getD (.num 0)) = .ok q := by
  unfold numField at h
  rcases hv : valOf mm k with _ | v
  · exact ⟨0, rfl⟩
  · rw [hv] at h
    cases v <;> simp [isNumV] at h
    exact ⟨_, rfl⟩

theorem languages_incons_ok {m : List (String × Value)}
    (hwt : wtPayload m = true) :
    ∃ L, languages_incons m = .ok L := by
  unfold languages_incons
  rcases hv : valOf m "languages" with _ | v
  · simp only [hv, Option.getD]
    exact ⟨_, rfl⟩
  · have hk := wt_some hwt hv
    simp [wtKey] at hk
    cases v <;> simp [isListV] at hk
    simp only [hv, Option.getD]
    exact ite_isOk (fun _ => ⟨_, rfl⟩) (fun _ => ⟨_, rfl⟩)

theorem screen_incons_ok {m : List (String × Value)}
    (hwt : wtPayload m = true) :
    ∃ S, screen_incons m = .ok S := by
  have hnum : ∀ (k : String), (∀ v, wtKey k v = isNumV v) →
      isNumV ((valOf m k).getD (.num 0)) = true := by
    intro k hkk
    rcases hv : valOf m k with _ | v
    · rfl
    · have hk := wt_some hwt hv
      rw [hkk] at hk
      exact hk
  have hw := hnum "screen_width" (fun v => by simp [wtKey])
  have hh := hnum "screen_height" (fun v => by simp [wtKey])
  unfold screen_incons
  rcases hvw : (valOf m "screen_width").getD (.num 0) with _ | b | qw | sw | xw | mw <;>
    rw [hvw] at hw <;> simp [isNumV] at hw
  rcases hvh : (valOf m "screen_height").getD (.num 0) with _ | b | qh | sh | xh | mh <;>
    rw [hvh] at hh <;> simp [isNumV] at hh
  exact ite_isOk (fun _ => ⟨_, rfl⟩) (fun _ =>
    bind_isOk ⟨_, rfl⟩ (fun wS _ => ite_isOk (fun _ => ⟨_, rfl⟩) (fun _ => ⟨_, rfl⟩)))

theorem analyze_browser_fingerprint_ok {m : List (String × Value)}
    (hwt : wtPayload m = true) :
    ∃ a, analyze_browser_fingerprint (.dict m) = .ok a := by
  unfold analyze_browser_fingerprint
  refine ite_isOk (fun _ => ⟨_, rfl⟩) (fun _ => ?_)
  refine bind_isOk (languages_incons_ok hwt) fun L _ => ?_
  refine bind_isOk (screen_incons_ok hwt) fun S _ => ?_
  exact ⟨_, rfl⟩

theorem os_consistency_check_ok {m : List (String × Value)} (parsed : ParsedUA)
    (hwt : wtPayload m = true) :
    ∃ c, os_consistency_check m parsed = .ok c := by
  unfold os_consistency_check
  rcases hv : valOf m "platform" with _ | v
  · simp only [hv, Option.getD]; exact ⟨_, rfl⟩
  · have hk := wt_some hwt hv
    simp [wtKey] at hk
    cases v <;> simp [isStrV] at hk
    simp only [hv, Option.getD]
    refine ite_isOk (fun _ => ?_) (fun _ => ⟨_, rfl⟩)
    exact ite_isOk (fun _ => ⟨_, rfl⟩)
      (fun _ => ite_isOk (fun _ => ⟨_, rfl⟩) (fun _ => ⟨_, rfl⟩))

theorem language_consistency_check_ok {m : List (String × Value)}
    (hs : List (String × String)) (hwt : wtPayload m = true) :
    ∃ c, language_consistency_check m hs = .ok c := by
  unfold language_consistency_check
  rcases hv : valOf m "language" with _ | v
  · simp only [hv, Option.getD]; exact ⟨_, rfl⟩
  · have hk := wt_some hwt hv
    simp [wtKey] at hk
    cases v <;> simp [isStrV] at hk
    simp only [hv, Option.getD]
    refine ite_isOk (fun _ => ?_) (fun _ => ⟨_, rfl⟩)
    exact ite_isOk (fun _ => ⟨_, rfl⟩) (fun _ => ⟨_, rfl⟩)

theorem timezone_consistency_check_ok {m : List (String × Value)}
    (hwt : wtPayload m = true) :
    ∃ c, timezone_consistency_check m = .ok c := by
  unfold timezone_consistency_check
  rcases hv : valOf m "timezone_offset" with _ | v
  · simp only [hv, Option.getD]; exact ⟨_, rfl⟩
  · have hk := wt_some hwt hv
    simp [wtKey] at hk
    cases v <;> try simp [isNumV, isNullV] at hk
    · simp only [hv, Option.getD]; exact ⟨_, rfl⟩
    · simp only [hv, Option.getD]
      refine bind_isOk ⟨_, rfl⟩ fun lo _ => ?_
      refine ite_isOk (fun _ => ?_) (fun _ => ?_)
      · exact bind_isOk ⟨_, rfl⟩ fun y _ => ite_isOk (fun _ => ⟨_, rfl⟩) (fun _ => ⟨_, rfl⟩)
      · exact bind_isOk ⟨_, rfl⟩ fun y _ => ite_isOk (fun _ => ⟨_, rfl⟩) (fun _ => ⟨_, rfl⟩)

theorem hardware_concurrency_check_ok {m : List (String × Value)}
    (hwt : wtPayload m = true) :
    ∃ c, hardware_concurrency_check m = .ok c := by
  unfold hardware_concurrency_check
  have hnum : isNumV ((valOf m "hardware_concurrency").getD (.num 0)) = true := by
    rcases hv : valOf m "hardware_concurrency" with _ | v
    · rfl
    · have hk := wt_some hwt hv
      simp [wtKey] at hk
      exact hk
  rcases hvh : (valOf m "hardware_concurrency").getD (.num 0) with _ | b | q | st | xs | mm <;>
    rw [hvh] at hnum <;> simp [isNumV] at hnum
  exact ite_isOk (fun _ => ⟨_, rfl⟩) (fun _ =>
    bind_isOk ⟨_, rfl⟩ (fun big _ => ite_isOk (fun _ => ⟨_, rfl⟩) (fun _ => ⟨_, rfl⟩)))

theorem check_consistency_ok (parsed : ParsedUA) (hs : List (String × String))
    {m : List (String × Value)} (hwt : wtPayload m = true) :
    ∃ c, check_consistency (.dict m) parsed hs = .ok c := by
  unfold check_consistency
  refine bind_isOk (os_consistency_check_ok parsed hwt) fun os _ => ?_
  refine bind_isOk (language_consistency_check_ok hs hwt) fun lang _ => ?_
  refine bind_isOk (timezone_consistency_check_ok hwt) fun tzc _ => ?_
  exact bind_isOk (hardware_concurrency_check_ok hwt) fun hcc _ => ⟨_, rfl⟩



theorem pyGet_dict (m : List (String × Value)) (k : String) (d : Value) :
    (Value.dict m).pyGet k d = .ok ((valOf m k).getD d) := rfl

theorem exbind_ok {α β : Type} (x : α) (f : α → Except PyErr β) :
    (Except.ok x >>= f) = f x := rfl

theorem analyze_behavioral_signals_ok {m : List (String × Value)}
    (hwt : wtPayload m = true) :
    ∃ b, analyze_behavioral_signals (.dict m) = .ok b := by
  have hb : ∀ (k : String), (∀ v, wtKey k v = isBoolV v) → ∀ (d : Bool),
      isBoolV ((valOf m k).getD (.bool d)) = true := by
    intro k hkk d
    rcases hv : valOf m k with _ | v
    · rfl
    · have hk := wt_some hwt hv
      rw [hkk] at hk
      exact hk
  have h1 := hb "has_mouse_movement" (fun v => by simp [wtKey]) false
  have h2 := hb "has_keyboard_input" (fun v => by simp [wtKey]) false
  have h3 := hb "has_page_focus" (fun v => by simp [wtKey]) true
  have h4 := hb "has_scroll" (fun v => by simp [wtKey]) false
  unfold analyze_behavioral_signals
  simp only [pyGet_dict, exbind_ok]
  rcases e1 : (valOf m "has_mouse_movement").getD (.bool false) with _ | b1 | _ | _ | _ | _ <;>
    rw [e1] at h1 <;> simp [isBoolV] at h1
  rcases e2 : (valOf m "has_keyboard_input").getD (.bool false) with _ | b2 | _ | _ | _ | _ <;>
    rw [e2] at h2 <;> simp [isBoolV] at h2
  rcases e3 : (valOf m "has_page_focus").getD (.bool true) with _ | b3 | _ | _ | _ | _ <;>
    rw [e3] at h3 <;> simp [isBoolV] at h3
  rcases e4 : (valOf m "has_scroll").getD (.bool false) with _ | b4 | _ | _ | _ | _ <;>
    rw [e4] at h4 <;> simp [isBoolV] at h4
  exact ⟨_, rfl⟩

theorem detect_automation_ok (m : List (String × Value)) :
    ∃ a, detect_automation (.dict m) = .ok a := ⟨_, rfl⟩

theorem analyze_tls_ok (p : String) (sec : Bool) (c tv : String)
    (m : List (String × Value)) :
    ∃ t, analyze_tls p sec c tv (.dict m) = .ok t := ⟨_, rfl⟩

theorem vm_is_likely_ok {dm : List (String × Value)} :
    ∃ b, vm_is_likely (.dict dm) = .ok b := by
  unfold vm_is_likely
  exact ite_isOk (fun _ => ⟨_, rfl⟩) (fun _ => ⟨_, rfl⟩)

theorem analyze_vm_detection_ok {m : List (String × Value)}
    (hwt : wtPayload m = true) :
    ∃ v, analyze_vm_detection (.dict m) = .ok v := by
  have hvm : wtKey "vm_detection" ((valOf m "vm_detection").getD (.dict [])) = true := by
    rcases hv : valOf m "vm_detection" with _ | v
    · simp [wtKey, isDictV]
    · exact wt_some hwt hv
  unfold analyze_vm_detection
  simp only [pyGet_dict, exbind_ok]
  rcases hd : (valOf m "vm_detection").getD (.dict []) with _ | b | q | st | xs | dm <;>
    rw [hd] at hvm <;> simp [wtKey, isDictV] at hvm
  simp only [pyGet_dict, exbind_ok]
  exact bind_isOk vm_is_likely_ok fun isvm _ => ⟨_, rfl⟩

theorem analyze_extensions_ok {m : List (String × Value)}
    (hwt : wtPayload m = true) :
    ∃ e, analyze_extensions (.dict m) = .ok e := by
  have hvm : wtKey "browser_extensions" ((valOf m "browser_extensions").getD (.dict [])) = true := by
    rcases hv : valOf m "browser_extensions" with _ | v
    · simp [wtKey, isDictV]
    · exact wt_some hwt hv
  unfold analyze_extensions
  simp only [pyGet_dict, exbind_ok]
  rcases hd : (valOf m "browser_extensions").getD (.dict []) with _ | b | q | st | xs | dm <;>
    rw [hd] at hvm <;> simp [wtKey, isDictV] at hvm
  exact ⟨_, rfl⟩

theorem interaction_suspicion_ok {tfi : Value}
    (h : isNumV tfi = true ∨ tfi = .null) :
    ∃ s, interaction_suspicion tfi = .ok s := by
  unfold interaction_suspicion
  rcases h with h | h
  · cases tfi <;> simp [isNumV] at h
    simp only []
    refine ite_isOk (fun _ => ?_) (fun _ => ⟨_, rfl⟩)
    exact bind_isOk ⟨_, rfl⟩ fun y _ => ite_isOk (fun _ => ⟨_, rfl⟩) (fun _ => ⟨_, rfl⟩)
  · subst h
    exact ⟨_, rfl⟩

theorem timing_suspicion_ok {tfc tfi : Value}
    (hc : isNumV tfc = true ∨ tfc = .null)
    (hi : isNumV tfi = true ∨ tfi = .null) :
    ∃ s, timing_suspicion tfc tfi = .ok s := by
  unfold timing_suspicion
  rcases hc with hc | hc
  · cases tfc <;> simp [isNumV] at hc
    simp only []
    refine ite_isOk (fun _ => ?_) (fun _ => ?_)
    · exact bind_isOk ⟨_, rfl⟩ fun y _ =>
        ite_isOk (fun _ => ⟨_, rfl⟩) (fun _ => interaction_suspicion_ok hi)
    · exact bind_isOk ⟨_, rfl⟩ fun y _ =>
        ite_isOk (fun _ => ⟨_, rfl⟩) (fun _ => interaction_suspicion_ok hi)
  · subst hc
    exact interaction_suspicion_ok hi

theorem analyze_timing_ok {m : List (String × Value)}
    (hwt : wtPayload m = true) :
    ∃ t, analyze_timing (.dict m) = .ok t := by
  have htd : wtKey "advanced_timing" ((valOf m "advanced_timing").getD (.dict [])) = true := by
    rcases hv : valOf m "advanced_timing" with _ | v
    · simp [wtKey, numField, valOf]
    · exact wt_some hwt hv
  unfold analyze_timing
  simp only [pyGet_dict, exbind_ok]
  rcases hd : (valOf m "advanced_timing").getD (.dict []) with _ | b | q | st | xs | dm <;>
    rw [hd] at htd <;> simp [wtKey] at htd
  simp only [pyGet_dict, exbind_ok]
  have hfield : ∀ (k : String), numField dm k = true →
      isNumV ((valOf dm k).getD .null) = true ∨ ((valOf dm k).getD .null) = .null := by
    intro k hk
    unfold numField at hk
    rcases hv : valOf dm k with _ | v
    · right; rfl
    · rw [hv] at hk
      left
      exact hk
  refine bind_isOk (timing_suspicion_ok
    (hfield "time_to_first_click" htd.1)
    (hfield "time_to_first_interaction" htd.2)) fun sr _ => ⟨_, rfl⟩



theorem pointer_type_of_ok (cm : List (String × Value)) :
    ∃ s, pointer_type_of (.dict cm) = .ok s := by
  unfold pointer_type_of
  simp only [pyGet_dict, exbind_ok]
  exact ite_isOk (fun _ => ⟨_, rfl⟩) (fun _ => ⟨_, rfl⟩)

theorem color_gamut_of_ok (cm : List (String × Value)) :
    ∃ s, color_gamut_of (.dict cm) = .ok s := by
  unfold color_gamut_of
  simp only [pyGet_dict, exbind_ok]
  exact ite_isOk (fun _ => ⟨_, rfl⟩) (fun _ => ⟨_, rfl⟩)

theorem analyze_css_media_ok {m : List (String × Value)}
    (hwt : wtPayload m = true) :
    ∃ c, analyze_css_media (.dict m) = .ok c := by
  have hcd : wtKey "css_media_queries" ((valOf m "css_media_queries").getD (.dict [])) = true := by
    rcases hv : valOf m "css_media_queries" with _ | v
    · simp [wtKey, isDictV]
    · exact wt_some hwt hv
  unfold analyze_css_media
  simp only [pyGet_dict, exbind_ok]
  rcases hd : (valOf m "css_media_queries").getD (.dict []) with _ | b | q | st | xs | cm <;>
    rw [hd] at hcd <;> simp [wtKey, isDictV] at hcd
  refine bind_isOk ⟨_, rfl⟩ fun inTop _ => ?_
  refine ite_isOk (fun _ => ?_) (fun _ => ?_)
  · simp only [pyGet_dict, exbind_ok]
    exact bind_isOk (pointer_type_of_ok cm) fun pt _ =>
      bind_isOk (color_gamut_of_ok cm) fun g _ => ⟨_, rfl⟩
  · simp only [pyGet_dict, exbind_ok]
    exact bind_isOk ⟨_, rfl⟩ fun y _ =>
      bind_isOk (pointer_type_of_ok cm) fun pt _ =>
        bind_isOk (color_gamut_of_ok cm) fun g _ => ⟨_, rfl⟩

theorem analyze_speech_ok {m : List (String × Value)}
    (hwt : wtPayload m = true) :
    ∃ s, analyze_speech (.dict m) = .ok s := by
  have hvc : isNumV ((valOf m "speech_voices_count").getD (.num 0)) = true := by
    rcases hv : valOf m "speech_voices_count" with _ | v
    · rfl
    · have hk := wt_some hwt hv
      simp [wtKey] at hk
      exact hk
  unfold analyze_speech
  simp only [pyGet_dict, exbind_ok]
  refine ite_isOk (fun _ => ⟨_, rfl⟩) (fun _ => ?_)
  rcases hd : (valOf m "speech_voices_count").getD (.num 0) with _ | b | q | st | xs | dm <;>
    rw [hd] at hvc <;> simp [isNumV] at hvc
  exact ⟨_, rfl⟩

theorem analyze_client_hints_ok {m : List (String × Value)}
    (hwt : wtPayload m = true) :
    ∃ h, analyze_client_hints (.dict m) = .ok h := by
  have hch : wtKey "client_hints" ((valOf m "client_hints").getD (.dict [])) = true := by
    rcases hv : valOf m "client_hints" with _ | v
    · simp [wtKey, isDictV]
    · exact wt_some hwt hv
  have hhe : wtKey "client_hints_high_entropy"
      ((valOf m "client_hints_high_entropy").getD (.dict [])) = true := by
    rcases hv : valOf m "client_hints_high_entropy" with _ | v
    · simp [wtKey, isDictV]
    · exact wt_some hwt hv
  unfold analyze_client_hints
  simp only [pyGet_dict, exbind_ok]
  rcases hd : (valOf m "client_hints").getD (.dict []) with _ | b | q | st | xs | hm <;>
    rw [hd] at hch <;> simp [wtKey, isDictV] at hch
  refine ite_isOk (fun _ => ⟨_, rfl⟩) (fun _ => ?_)
  simp only [pyGet_dict, exbind_ok]
  rcases he : (valOf m "client_hints_high_entropy").getD (.dict []) with _ | b | q | st | xs | em <;>
    rw [he] at hhe <;> simp [wtKey, isDictV] at hhe
  exact ⟨_, rfl⟩

theorem mapM_str_some {xs : List Value} (h : xs.all isStrV = true) :
    ∃ ts, (xs.mapM (fun x => match x with | .str t => some t | _ => none)) = some ts := by
  induction xs with
  | nil => exact ⟨[], rfl⟩
  | cons x rest ih =>
    rw [List.all_cons, Bool.and_eq_true] at h
    obtain ⟨ts, hts⟩ := ih h.2
    have h1 := h.1
    cases x <;> simp [isStrV] at h1
    rename_i t
    exact ⟨t :: ts, by rw [List.mapM_cons, hts]; rfl⟩

theorem pyJoin_ok {xs : List Value} (h : xs.all isStrV = true) (sep : String) :
    ∃ s, pyJoin sep (.list xs) = .ok s := by
  obtain ⟨ts, hts⟩ := mapM_str_some h
  refine ⟨String.intercalate sep ts, ?_⟩
  simp only [pyJoin]
  rw [hts]

theorem ip_info_indicators_dict_ok (ip : String) (dm : List (String × Value)) :
    ∃ l, ip_info_indicators ip (.dict dm) = .ok l := by
  unfold ip_info_indicators
  exact ite_isOk (fun _ => ⟨_, rfl⟩) (fun _ => ⟨_, rfl⟩)

theorem webrtc_indicators_ok {xs : List Value} (ip : String)
    (h : xs.all isStrV = true) :
    ∃ l, webrtc_indicators ip (.list xs) = .ok l := by
  unfold webrtc_indicators
  refine ite_isOk (fun _ => ?_) (fun _ => ⟨_, rfl⟩)
  refine bind_isOk ⟨_, rfl⟩ fun n _ => ?_
  refine ite_isOk (fun _ => ?_) (fun _ => ⟨_, rfl⟩)
  refine bind_isOk ⟨_, rfl⟩ fun isIn _ => ?_
  refine ite_isOk (fun _ => ?_) (fun _ => ⟨_, rfl⟩)
  exact bind_isOk (pyJoin_ok h ", ") fun j _ => ⟨_, rfl⟩

theorem detect_proxy_vpn_ok (hs : List (String × String)) (ip : String)
    {m : List (String × Value)} (hwt : wtPayload m = true) :
    ∃ p, detect_proxy_vpn hs ip (.dict m) = .ok p := by
  unfold detect_proxy_vpn
  simp only [pyGet_dict, exbind_ok]
  refine bind_isOk ?_ fun ipInds _ => ?_
  · rcases hv : valOf m "ip_info" with _ | v
    · simp only [hv, Option.getD]
      exact ⟨_, rfl⟩
    · have hk := wt_some hwt hv
      simp [wtKey] at hk
      cases v <;> simp [isDictV] at hk
      simp only [hv, Option.getD]
      exact ip_info_indicators_dict_ok ip _
  · refine bind_isOk ?_ fun wInds _ => ⟨_, rfl⟩
    rcases hv : valOf m "webrtc_ips" with _ | v
    · simp only [hv, Option.getD]
      exact webrtc_indicators_ok ip rfl
    · have hk := wt_some hwt hv
      simp [wtKey] at hk
      cases v <;> simp at hk
      simp only [hv, Option.getD]
      exact webrtc_indicators_ok ip (List.all_eq_true.mpr hk)

theorem mouse_section_ok {md : Value} (h : wtKey "mouse_behavior" md = true) :
    ∃ o, mouse_section md = .ok o := by
  unfold mouse_section
  simp [wtKey] at h
  cases md <;> simp at h
  refine ite_isOk (fun _ => ?_) (fun _ => ⟨_, rfl⟩)
  simp only [pyGet_dict, exbind_ok]
  refine bind_isOk (pyFloat_field_ok h.1.1) fun av _ => ?_
  refine bind_isOk (pyFloat_field_ok h.1.2) fun mv _ => ?_
  exact bind_isOk (pyFloat_field_ok h.2) fun aa _ => ⟨_, rfl⟩

theorem click_section_ok {cd : Value} (h : wtKey "click_behavior" cd = true) :
    ∃ o, click_section cd = .ok o := by
  unfold click_section
  simp [wtKey] at h
  cases cd <;> simp at h
  refine ite_isOk (fun _ => ?_) (fun _ => ⟨_, rfl⟩)
  simp only [pyGet_dict, exbind_ok]
  refine bind_isOk (pyFloat_field_ok h.1) fun ai _ => ?_
  exact bind_isOk (pyFloat_field_ok h.2) fun rv _ => ⟨_, rfl⟩

theorem scroll_section_ok {sd : Value} (h : wtKey "scroll_behavior" sd = true) :
    ∃ o, scroll_section sd = .ok o := by
  unfold scroll_section
  simp [wtKey] at h
  cases sd <;> simp at h
  refine ite_isOk (fun _ => ?_) (fun _ => ⟨_, rfl⟩)
  simp only [pyGet_dict, exbind_ok]
  exact bind_isOk (pyFloat_field_ok h) fun sv _ => ⟨_, rfl⟩

theorem keyboard_section_ok {kd : Value} (h : wtKey "keyboard_behavior" kd = true) :
    ∃ o, keyboard_section kd = .ok o := by
  unfold keyboard_section
  simp [wtKey] at h
  cases kd <;> simp at h
  refine ite_isOk (fun _ => ?_) (fun _ => ⟨_, rfl⟩)
  simp only [pyGet_dict, exbind_ok]
  refine bind_isOk (pyFloat_field_ok h.1.1) fun dw _ => ?_
  refine bind_isOk (pyFloat_field_ok h.1.2) fun fl _ => ?_
  exact bind_isOk (pyFloat_field_ok h.2) fun tr _ => ⟨_, rfl⟩

theorem analyze_advanced_behavioral_ok {m : List (String × Value)}
    (hwt : wtPayload m = true) :
    ∃ a, analyze_advanced_behavioral (.dict m) = .ok a := by
  have hsec : ∀ (k : String), (wtKey k (.dict []) = true) →
      wtKey k ((valOf m k).getD (.dict [])) = true := by
    intro k hd
    rcases hv : valOf m k with _ | v
    · simpa using hd
    · simpa using wt_some hwt hv
  unfold analyze_advanced_behavioral
  simp only [pyGet_dict, exbind_ok]
  refine bind_isOk (mouse_section_ok (hsec "mouse_behavior" (by decide)))
    fun mo _ => ?_
  refine bind_isOk (click_section_ok (hsec "click_behavior" (by decide)))
    fun cl _ => ?_
  refine bind_isOk (scroll_section_ok (hsec "scroll_behavior" (by decide)))
    fun sc _ => ?_
  exact bind_isOk (keyboard_section_ok (hsec "keyboard_behavior" (by decide)))
    fun kb _ => ⟨_, rfl⟩



theorem analyze_ok (req : Request) {m : List (String × Value)}
    (hwt : wtPayload m = true) :
    ∃ r, analyze req (.dict m) = .ok r := by
  obtain ⟨m2, hfp, hwt2⟩ :
      ∃ m2, ((if truthy (Value.dict m) then Value.dict m else Value.dict []) = Value.dict m2)
        ∧ wtPayload m2 = true := by
    by_cases ht : truthy (Value.dict m) = true
    · exact ⟨m, by rw [if_pos ht], hwt⟩
    · exact ⟨[], by rw [if_neg ht], rfl⟩
  unfold analyze
  simp only []
  rw [hfp]
  refine bind_isOk (analyze_browser_fingerprint_ok hwt2) fun fpA _ => ?_
  refine bind_isOk (detect_proxy_vpn_ok req.headers _ hwt2) fun px _ => ?_
  refine bind_isOk (detect_automation_ok m2) fun au _ => ?_
  refine bind_isOk (check_consistency_ok req.parsed req.headers hwt2) fun cs _ => ?_
  refine bind_isOk (analyze_tls_ok req.protocol req.is_secure req.cipher req.tls_version m2)
    fun tls _ => ?_
  refine bind_isOk (analyze_behavioral_signals_ok hwt2) fun bh _ => ?_
  refine bind_isOk (analyze_advanced_behavioral_ok hwt2) fun adv _ => ?_
  refine bind_isOk (analyze_vm_detection_ok hwt2) fun vm _ => ?_
  refine bind_isOk (analyze_extensions_ok hwt2) fun ext _ => ?_
  refine bind_isOk (analyze_timing_ok hwt2) fun tm _ => ?_
  refine bind_isOk (analyze_css_media_ok hwt2) fun css _ => ?_
  refine bind_isOk (analyze_speech_ok hwt2) fun sp _ => ?_
  exact bind_isOk (analyze_client_hints_ok hwt2) fun ch _ => ⟨_, rfl⟩

/-! ## Claims C4 and C6 -/

def wtPayloadExample : List (String × Value) :=
  [("platform", .str "Win32"), ("languages", .list [.str "en-US"]),
   ("hardware_concurrency", .num 8)]

def plainRequest : Request :=
  { headers := [("User-Agent", "Mozilla/5.0"), ("Accept", "text/html")],
    remote_addr := "203.0.113.5", method := "POST", path := "/analyze",
    protocol := "HTTP/1.1", port := "443", is_secure := true,
    cipher := "TLS_AES_128_GCM_SHA256", tls_version := "TLSv1.3",
    parsed := ⟨"Chrome", "Windows", false⟩ }

/-- C4: refuted as stated.  A present key of the wrong type is not coerced
to a conservative default: the consistency checker raises an attribute
error on a numeric platform value, and the behavioral-signal sum raises a
type error on a string flag. -/
theorem c4_counterexample :
    check_consistency (.dict [("platform", .num 5)]) ⟨"Chrome", "Windows", false⟩ []
      = .error .attributeError ∧
    analyze_behavioral_signals (.dict [("has_mouse_movement", .str "yes")])
      = .error .typeError :=
  ⟨rfl, rfl⟩

/-- C4 (amended): on any payload whose present keys carry the expected
types — keys may be missing arbitrarily, resolving to the conservative
defaults — the whole pipeline, hence every analyzer and the consistency
checker, completes without raising. -/
theorem c4_no_raise_on_well_typed (req : Request) {m : List (String × Value)}
    (hwt : wtPayload m = true) :
    ∃ r, analyze req (.dict m) = .ok r :=
  analyze_ok req hwt

/-- Witness for the amended C4 theorem at a concrete request and a
concrete well-typed payload with most keys absent. -/
theorem c4_no_raise_witness :
    wtPayload wtPayloadExample = true ∧
    ∃ r, analyze plainRequest (.dict wtPayloadExample) = .ok r :=
  ⟨by decide, c4_no_raise_on_well_typed plainRequest (by decide)⟩

/-- C6: refuted as stated.  A body whose parse raises is answered by the
exception handler with a failure response and HTTP 500, not by the
empty-map degradation. -/
theorem c6_counterexample :
    (analyze_visitor plainRequest .raises).1.success = false ∧
    (analyze_visitor plainRequest .raises).2 = 500 :=
  ⟨rfl, rfl⟩

/-- C6 (amended): when the body parses to nothing, or parses to data
without a usable fingerprint, the empty map is substituted and the
endpoint answers success and HTTP 200 with fingerprint integrity graded
bad. -/
theorem c6_empty_body_degrades (req : Request) :
    ((analyze_visitor req .noData).1.success = true ∧
     ((analyze_visitor req .noData).1.results.map
        (fun r => r.browser_fingerprint.quality)) = some "bad" ∧
     (analyze_visitor req .noData).2 = 200) ∧
    ((analyze_visitor req (.parsed (.dict [("other", .num 1)]))).1.success = true ∧
     ((analyze_visitor req (.parsed (.dict [("other", .num 1)]))).1.results.map
        (fun r => r.browser_fingerprint.quality)) = some "bad" ∧
     (analyze_visitor req (.parsed (.dict [("other", .num 1)]))).2 = 200) :=
  ⟨⟨rfl, rfl, rfl⟩, ⟨rfl, rfl, rfl⟩⟩

end VisitorApp
